import Mathlib

/-!
# Verification of the F1-news-app summarization engine

Shallow embedding of the `NewsSummarizer` class (`summarizer.js`, reproduced in
`src/frontend/tests/App.test.js`) and of the phrase worker
(`src/workers/phrase-worker.js`), with theorems settling the frozen claims
about the natural-language specification.

Modelling conventions:
* JS strings are `List Char` (`Str`); `str` lifts a Lean string literal.
* A JS array element that may be a non-string is `JVal := Option Str`
  (`none` stands for any non-string value such as `null` or a number).
* JS floating-point similarity values are represented as exact fractions
  `Nat × Nat` (numerator, positive denominator); the JS comparison
  `similarity > 0.6` becomes `5 * num > 3 * den`.  All fractions produced by
  the Dice coefficient on the inputs used here are exactly representable in
  binary64, so the rational model matches the float comparisons.
* JS `Map`s (the two bounded caches) are insertion-ordered association lists.
* Wall-clock metrics (`performance.now()` timers) are not modelled; they are
  advisory and no claim depends on them.
-/

/-- JS string contents as a list of characters. -/
abbrev Str : Type := List Char

/-- Lift a Lean string literal to `Str`. -/
def str (s : String) : Str := s.data

/-- JS `\s` whitespace (restricted to the ASCII whitespace actually present
in the inputs: space, tab, newline, carriage return). -/
def jsIsSpace (c : Char) : Bool := c = ' ' || c = '\t' || c = '\n' || c = '\r'

/-- JS `\w` word character: ASCII letter, digit or underscore. -/
def isWordChar (c : Char) : Bool := c.isAlphanum || c = '_'

/-- JS `String.prototype.trim`: strip whitespace from both ends. -/
def jsTrim (s : Str) : Str :=
  ((s.dropWhile jsIsSpace).reverse.dropWhile jsIsSpace).reverse

/-- JS `split` on runs of separator characters (`split(/\s+/)` and
`split(/[.!?]+/)`): a run of consecutive separators is one split point, and JS
keeps an empty fragment at the start (resp. end) when the string starts
(resp. ends) with a separator; `"".split` is `[""]`. -/
def jsSplitOn (p : Char → Bool) : Str → List Str
  | [] => [[]]
  | c :: cs =>
    let r := jsSplitOn p cs
    if p c then
      match cs with
      | d :: _ => if p d then r else [] :: r
      | [] => [] :: r
    else
      match r with
      | [] => [[c]]
      | w :: ws => (c :: w) :: ws

/-- JS `text.split(/\s+/)`. -/
def jsSplitWS : Str → List Str := jsSplitOn jsIsSpace

/-- The summarizer's stopword set (`this.commonWords`). -/
def commonWords : List Str :=
  [str "the", str "be", str "to", str "of", str "and", str "a", str "in",
   str "that", str "have", str "i", str "it", str "for", str "not", str "on",
   str "with", str "he", str "as", str "you", str "do", str "at"]

/-- JS `Array.prototype.join(' ')`. -/
def joinSpace : List Str → Str
  | [] => []
  | [w] => w
  | w :: ws => w ++ ' ' :: joinSpace ws

/-- Phrase extraction performed by `phrase-worker.js`: lower-case, delete every
non-word/non-space character, split on whitespace, drop stopwords, then emit
every window of 3 consecutive remaining tokens joined by single spaces. -/
def extractPhrases (text : Str) : List Str :=
  let words := jsSplitWS ((text.map Char.toLower).filter
    (fun c => isWordChar c || jsIsSpace c))
  let words := words.filter (fun w => ¬ commonWords.contains w)
  (List.range (words.length - 2)).map (fun i => joinSpace ((words.drop i).take 3))

/-! ## Dice bigram similarity (`string-similarity`'s `compareTwoStrings`) -/

/-- Remove all whitespace (JS `replace(/\s+/g, '')`). -/
def stripWS (s : Str) : Str := s.filter (fun c => ¬ jsIsSpace c)

/-- The list of adjacent character pairs of a string. -/
def bigrams : Str → List (Char × Char)
  | a :: b :: rest => (a, b) :: bigrams (b :: rest)
  | _ => []

/-- Remove the first occurrence of a bigram from the pool (the decrement of
its count in the library's `firstBigrams` map). -/
def removeFirst (y : Char × Char) : List (Char × Char) → List (Char × Char)
  | [] => []
  | x :: xs => if x = y then xs else x :: removeFirst y xs

/-- The library's intersection loop: walk the second string's bigrams, and for
each one still available in the (multiset) pool of the first string's bigrams,
consume it and count it. -/
def interLoop (pool : List (Char × Char)) : List (Char × Char) → Nat
  | [] => 0
  | y :: g => if y ∈ pool then interLoop (removeFirst y pool) g + 1 else interLoop pool g

/-- `compareTwoStrings(first, second)` as an exact fraction
`(numerator, denominator)`: `1` for strings equal after whitespace removal,
`0` when either has fewer than 2 characters, otherwise
`2·|bigram intersection| / (|first| + |second| − 2)`. -/
def diceVal (a b : Str) : Nat × Nat :=
  let f := stripWS a
  let g := stripWS b
  if f = g then (1, 1)
  else if f.length < 2 ∨ g.length < 2 then (0, 1)
  else (2 * interLoop (bigrams f) (bigrams g), f.length + g.length - 2)

/-- The dedup threshold test `similarity > 0.6` on a stored fraction. -/
def valGT (v : Nat × Nat) : Bool := 5 * v.1 > 3 * v.2

/-- `compareTwoStrings(s, t) > 0.6` computed fresh. -/
def simB (s t : Str) : Bool := valGT (diceVal s t)

/-- A possibly-non-string JS array element. -/
abbrev JVal : Type := Option Str

/-- Similarity of a string against a possibly-non-string previous entry: a
non-string makes `compareTwoStrings` throw, which the code catches and treats
as "not similar". -/
def simJB (s : Str) : JVal → Bool
  | none => false
  | some t => simB s t

/-! ## The deduplicator (`removeDuplicateInfo`), cache elided

The similarity cache threaded by the real code is modelled separately below
(`removeDuplicateInfoC`); this version computes every similarity fresh. -/

/-- Split a list into consecutive chunks of 10, structurally recursive on a
fuel bound so that it evaluates in the kernel. -/
def chunks10F : Nat → List α → List (List α)
  | _, [] => []
  | 0, _ :: _ => []
  | fuel + 1, x :: xs => (x :: xs.take 9) :: chunks10F fuel (xs.drop 9)

/-- Split a list into consecutive chunks of 10 (`chunkSize = 10`). -/
def chunks10 (l : List α) : List (List α) := chunks10F l.length l

/-- One chunk of the dedup filter.  `acc` is the kept list accumulated over
previous chunks, `pre` the already-visited entries of the current chunk
(`chunk.slice(0, index)` — kept or dropped, strings or not).  An entry is kept
iff it is a non-empty string not similar (`> 0.6`) to any entry of
`acc ++ pre`. -/
def chunkKeep (acc : List Str) (pre : List JVal) : List JVal → List Str
  | [] => []
  | v :: rest =>
    match v with
    | none => chunkKeep acc (pre ++ [v]) rest
    | some s =>
      if s.isEmpty then chunkKeep acc (pre ++ [v]) rest
      else if (acc.map some ++ pre).any (fun o => simJB s o) then
        chunkKeep acc (pre ++ [v]) rest
      else s :: chunkKeep acc (pre ++ [some s]) rest

/-- `removeDuplicateInfo(sentences)`: chunk into groups of 10 and
`reduce`-concatenate each chunk's filtered entries. -/
def removeDuplicateInfo (xs : List JVal) : List Str :=
  (chunks10 xs).foldl (fun acc chunk => acc ++ chunkKeep acc [] chunk) []

/-- Modelled from the spec: the single continuous left-to-right pass the spec
describes for the deduplicator — keep a sentence iff its similarity to every
*already-kept* sentence is `≤ 0.6`, skipping empty/non-string entries. -/
def dedupSpecAux (kept : List Str) : List JVal → List Str
  | [] => []
  | none :: rest => dedupSpecAux kept rest
  | some s :: rest =>
    if s.isEmpty then dedupSpecAux kept rest
    else if kept.any (fun t => simB s t) then dedupSpecAux kept rest
    else s :: dedupSpecAux (kept ++ [s]) rest

/-- Modelled from the spec: the spec's single continuous pass, comparing only
against already-kept sentences. -/
def dedupSpec (xs : List JVal) : List Str := dedupSpecAux [] xs

/-! ## Bounded FIFO caches (JS `Map` + size-1000 eviction)

Both `this.phraseCache` and `this.similarityCache` follow the same pattern:
`map.set(key, value); if (map.size > 1000) map.delete(map.keys().next().value)`.
A JS `Map` is insertion-ordered with unique keys; `set` on an existing key
updates in place, and the first key is the oldest-inserted one. -/

/-- Look a key up in an insertion-ordered association list. -/
def lookupC [DecidableEq K] (c : List (K × V)) (k : K) : Option V :=
  (c.find? (fun p => p.1 = k)).map (fun p => p.2)

/-- JS `Map.prototype.set`: update in place if the key exists, else append. -/
def mapSet [DecidableEq K] (c : List (K × V)) (k : K) (v : V) : List (K × V) :=
  if k ∈ c.map (fun p => p.1) then
    c.map (fun p => if p.1 = k then (k, v) else p)
  else c ++ [(k, v)]

/-- `set` followed by the capacity check: if the map now exceeds 1000 entries,
delete the oldest-inserted key (the head of the insertion order). -/
def cacheInsert [DecidableEq K] (c : List (K × V)) (k : K) (v : V) : List (K × V) :=
  let c' := mapSet c k v
  if c'.length > 1000 then
    match c' with
    | [] => []
    | _ :: t => t
  else c'

/-! ## The deduplicator with its similarity cache (`removeDuplicateInfoC`) -/

/-- The similarity cache: key → stored similarity fraction. -/
abbrev SimCache : Type := List (Str × (Nat × Nat))

/-- The cache key written by the code: the template literal
`sentence + ":" + other`. -/
def simKey (s t : Str) : Str := s ++ ':' :: t

/-- One similarity check against the cache: on a hit return the stored value's
threshold test without recomputing; on a miss compute `compareTwoStrings`,
store it (with FIFO capacity handling) and test it.  A non-string `other`
makes the comparison throw, which is caught and treated as "not similar"
without a cache write.  Caveat: JS builds the template-literal key by
stringifying `other`, so a stored string-pair value (e.g. under the key
`"nulll:null"`) could be served when a sentence is compared against an
actual non-string; `none` carries no stringification, so that lookup is not
modelled here, and the claims settled over this function quantify over
string sentences. -/
def simCheckC (sc : SimCache) (s : Str) : JVal → Bool × SimCache
  | none => (false, sc)
  | some t =>
    let key := simKey s t
    match lookupC sc key with
    | some v => (valGT v, sc)
    | none =>
      let v := diceVal s t
      (valGT v, cacheInsert sc key v)

/-- JS `Array.prototype.some` over the previous entries, threading the cache
and short-circuiting at the first similar entry. -/
def jsSomeC (sc : SimCache) (s : Str) : List JVal → Bool × SimCache
  | [] => (false, sc)
  | o :: rest =>
    let r := simCheckC sc s o
    if r.1 then (true, r.2) else jsSomeC r.2 s rest

/-- One chunk of the dedup filter, threading the similarity cache
(compare `chunkKeep`). -/
def chunkKeepC (sc : SimCache) (acc : List Str) (pre : List JVal) :
    List JVal → List Str × SimCache
  | [] => ([], sc)
  | v :: rest =>
    match v with
    | none => chunkKeepC sc acc (pre ++ [v]) rest
    | some s =>
      if s.isEmpty then chunkKeepC sc acc (pre ++ [v]) rest
      else
        let r := jsSomeC sc s (acc.map some ++ pre)
        if r.1 then chunkKeepC r.2 acc (pre ++ [v]) rest
        else
          let rec' := chunkKeepC r.2 acc (pre ++ [some s]) rest
          (s :: rec'.1, rec'.2)

/-- `removeDuplicateInfo` exactly as implemented: chunked filtering with the
engine's similarity cache threaded through every comparison. -/
def removeDuplicateInfoC (sc : SimCache) (xs : List JVal) : List Str × SimCache :=
  (chunks10 xs).foldl
    (fun st chunk =>
      let r := chunkKeepC st.2 st.1 [] chunk
      (st.1 ++ r.1, r.2))
    ([], sc)

/-! ## Parallel phrase extraction with the phrase cache -/

/-- The phrase cache: 100-character text prefix → phrase list. -/
abbrev PhraseCache : Type := List (Str × List Str)

/-- `extractKeyPhrasesParallel(text)`: empty text fails validation (the thrown
error is caught and an empty list returned, cache untouched); otherwise the
first 100 characters form the cache key; on a hit the cached list is returned,
on a miss the worker's extraction runs and the result is stored with FIFO
capacity handling. -/
def extractKPP (pc : PhraseCache) (text : Str) : List Str × PhraseCache :=
  if text.isEmpty then ([], pc)
  else
    let key := text.take 100
    match lookupC pc key with
    | some phrases => (phrases, pc)
    | none =>
      let phrases := extractPhrases text
      (phrases, cacheInsert pc key phrases)

/-! ## Theme detection (`findCommonThemes`) -/

/-- An article as received from JS: each field may be absent or a non-string
(`none`) or a string. `publishDate` is never read by the summarizer. -/
structure JSArticle where
  title : JVal
  snippet : JVal
  source : JVal

/-- One required-field check: the value is present, a string, truthy and
non-blank after trimming. -/
def fieldOk : JVal → Bool
  | none => false
  | some s => ¬ s.isEmpty ∧ ¬ (jsTrim s).isEmpty

/-- `validateArticle`: `title`, `snippet` and `source` must all pass
`fieldOk`. -/
def validateArticle (a : JSArticle) : Bool :=
  fieldOk a.title && fieldOk a.snippet && fieldOk a.source

/-- `article.title + ' ' + article.snippet` (call sites only reach this for
articles whose fields are strings). -/
def combinedText (a : JSArticle) : Str :=
  a.title.getD [] ++ ' ' :: a.snippet.getD []

/-- One step of the occurrence-counting fold over a JS `Map`: a known phrase
is bumped in place, a new phrase is appended with count 1. -/
def bumpCount (m : List (Str × Nat)) (p : Str) : List (Str × Nat) :=
  if (m.map (fun q => q.1)).contains p then
    m.map (fun q => if q.1 = p then (q.1, q.2 + 1) else q)
  else m ++ [(p, 1)]

/-- Occurrence counting over the flattened phrase stream with a JS `Map`:
first occurrence inserts at the end, later occurrences bump in place, so the
entry order is first-occurrence order. -/
def buildCounts (phrases : List Str) : List (Str × Nat) :=
  phrases.foldl bumpCount []

/-- Stable insertion of a counted phrase into a descending-by-count list:
placed before the first entry with a count `≤` its own, so that entries with
equal counts keep their original relative order. -/
def insertByCount (p : Str × Nat) : List (Str × Nat) → List (Str × Nat)
  | [] => [p]
  | q :: rest => if q.2 ≤ p.2 then p :: q :: rest else q :: insertByCount p rest

/-- JS `Array.prototype.sort(([, a], [, b]) => b - a)`: a stable sort by
descending count. -/
def sortByCountDesc (l : List (Str × Nat)) : List (Str × Nat) :=
  l.foldr insertByCount []

/-- `findCommonThemes(articles)`: throw (caught → `[]`) on a non-array or
empty input; otherwise extract phrases per article (through the phrase
cache) over `title + ' ' + snippet`, flatten, count, keep counts `> 1`,
sort by descending count and return the phrase strings.  The concurrent
worker dispatch is modelled as left-to-right cache threading; the phrase
lists themselves do not depend on completion order. -/
def findCommonThemes (pc : PhraseCache) (articles : List JSArticle) :
    List Str × PhraseCache :=
  if articles.isEmpty then ([], pc)
  else
    let step := articles.foldl
      (fun st a =>
        let r := extractKPP st.2 (combinedText a)
        (st.1 ++ [r.1], r.2))
      (([] : List (List Str)), pc)
    let allPhrases := step.1.flatten
    let themes := (sortByCountDesc ((buildCounts allPhrases).filter
      (fun q => 1 < q.2))).map (fun q => q.1)
    (themes, step.2)

/-! ## The summary assembler (`summarize`) -/

/-- Sentence separators: `split(/[.!?]+/)`. -/
def isSentSep (c : Char) : Bool := c = '.' || c = '!' || c = '?'

/-- JS `snippet.split(/[.!?]+/)`. -/
def jsSplitSep : Str → List Str := jsSplitOn isSentSep

/-- `snippet.split(/[.!?]+/).map(s => s.trim()).filter(s => s.length > 0)`. -/
def splitSentences (s : Str) : List Str :=
  ((jsSplitSep s).map jsTrim).filter (fun t => ¬ t.isEmpty)

/-- JS `Array.prototype.join(sep)`. -/
def joinWith (sep : Str) : List Str → Str
  | [] => []
  | [w] => w
  | w :: ws => w ++ sep ++ joinWith sep ws

/-- `new Set(xs)` enumerated in insertion order. -/
def jsUniq (l : List Str) : List Str :=
  l.foldl (fun acc s => if acc.contains s then acc else acc ++ [s]) []

/-- The transient per-article result `{source, sentences, keyPoints}`. -/
structure ArticleResult where
  source : Str
  sentences : List Str
  keyPoints : List Str

/-- The record `summarize` returns.  Absent JS object fields are `none`
(resp. `false` for the `partialData` flag).  The advisory `metrics` snapshot
is not modelled. -/
structure SummaryRecord where
  summary : Str
  themes : List Str
  confidence : ℚ
  error : Option Str := none
  partialData : Bool := false
  processedArticles : Option Nat := none
  totalArticles : Option Nat := none

/-- `this.fallbackSummary`. -/
def fallbackSummary : SummaryRecord :=
  { summary := str "Unable to generate summary at this time."
    themes := []
    confidence := 0 }

/-- One per-article task of `summarize` step 3: split the snippet into
sentences, deduplicate them (similarity cache already updated by the time the
extraction is awaited), then extract key phrases and subtract the themes.
`failsHere` models the only fallible step — a worker failure rejecting the
awaited extraction — which the surrounding `catch` turns into `null`. -/
def processArticle (themes : List Str) (pc : PhraseCache) (sc : SimCache)
    (failsHere : Bool) (a : JSArticle) :
    Option ArticleResult × PhraseCache × SimCache :=
  let sentences := splitSentences (a.snippet.getD [])
  let d := removeDuplicateInfoC sc (sentences.map some)
  if failsHere then (none, pc, d.2)
  else
    let e := extractKPP pc (a.snippet.getD [])
    (some { source := a.source.getD []
            sentences := d.1
            keyPoints := e.1.filter (fun p => ¬ themes.contains p) },
     e.2, d.2)

/-- `Promise.all` over the per-article tasks followed by `.filter(Boolean)`,
with `fails i` telling whether the task for the `i`-th valid article failed.
The concurrent tasks are threaded left to right; the fields any claim reads
are independent of the interleaving. -/
def processArticles (themes : List Str) (fails : Nat → Bool) :
    List JSArticle → Nat → PhraseCache → SimCache →
    List ArticleResult × PhraseCache × SimCache
  | [], _, pc, sc => ([], pc, sc)
  | a :: rest, i, pc, sc =>
    let r := processArticle themes pc sc (fails i) a
    let rr := processArticles themes fails rest (i + 1) r.2.1 r.2.2
    ((r.1.toList) ++ rr.1, rr.2)

/-- The `try` block of `summarize`.  `none` models any non-array input and
reproduces `throw new SummarizationError('Invalid articles input')`; the
`Except` error carries the message.  Note `totalArticles` is set from the
count of *valid* articles in both branches that emit it. -/
def summarizeCore (fails : Nat → Bool) (pc : PhraseCache) (sc : SimCache) :
    Option (List JSArticle) → Except Str (SummaryRecord × PhraseCache × SimCache)
  | none => .error (str "Invalid articles input")
  | some articles =>
    let validArticles := articles.filter validateArticle
    if validArticles.isEmpty then
      .ok ({ fallbackSummary with error := some (str "No valid articles available") },
           pc, sc)
    else
      let t := findCommonThemes pc validArticles
      let themes := t.1
      let pr := processArticles themes fails validArticles 0 t.2 sc
      let results := pr.1
      -- `confidence = results.length / validArticles.length`; the float test
      -- `confidence < 0.5` is decided exactly by `2·|results| < |valid|`.
      if 2 * results.length < validArticles.length then
        .ok ({ fallbackSummary with
               partialData := true
               processedArticles := some results.length
               totalArticles := some validArticles.length }, pr.2.1, pr.2.2)
      else
        let confidence : ℚ := (results.length : ℚ) / (validArticles.length : ℚ)
        let line1 : List Str :=
          if themes.isEmpty then []
          else [str "Key themes: " ++ joinWith (str ", ") (themes.take 3) ++ str "."]
        let d := removeDuplicateInfoC pr.2.2
          ((results.flatMap (fun r => r.sentences)).map some)
        let mainPoints := joinWith (str ". ") (d.1.take 3)
        let line2 : List Str := if mainPoints.isEmpty then [] else [mainPoints ++ str "."]
        let sources := jsUniq (results.map (fun r => r.source))
        let lines := line1 ++ line2 ++ [str "Sources: " ++ joinWith (str ", ") sources]
        .ok ({ summary := joinWith (str "\n") lines
               themes := themes
               confidence := confidence
               processedArticles := some results.length
               totalArticles := some validArticles.length }, pr.2.1, d.2)

/-- `summarize` with its catch-all handler: every internal throw — including
the `SummarizationError` raised for non-array input — is caught and turned
into the fallback record with an `error` message; nothing propagates. -/
def summarize (fails : Nat → Bool) (pc : PhraseCache) (sc : SimCache)
    (input : Option (List JSArticle)) : SummaryRecord × PhraseCache × SimCache :=
  match summarizeCore fails pc sc input with
  | .ok r => r
  | .error msg => ({ fallbackSummary with error := some msg }, pc, sc)

/-! ## Coherence predicates for the two caches -/

/-- A string without `':'` — for such strings the similarity-cache key
decomposes uniquely. -/
def colonFree (s : Str) : Bool := ¬ s.contains ':'

/-- Every similarity-cache entry whose key reads as `a + ":" + b` for
colon-free `a`, `b` stores exactly `compareTwoStrings(a, b)`. -/
def scCoherent (sc : SimCache) : Prop :=
  ∀ p ∈ sc, ∀ a b : Str, colonFree a → colonFree b →
    p.1 = simKey a b → p.2 = diceVal a b

/-- Every phrase-cache entry was stored for a text of at most 100 characters
(so the key *is* the text) and holds that text's fresh extraction. -/
def pcCoherent (pc : PhraseCache) : Prop :=
  ∀ p ∈ pc, p.1.length ≤ 100 ∧ p.2 = extractPhrases p.1
/-! ## Derived definitions used by the theorems -/

/-- The comparison actually executed between a later kept sentence `b` and an
earlier kept sentence `a`: `compareTwoStrings(b, a) ≤ 0.6`. -/
def dissim (a b : Str) : Prop := simB b a = false

/-- One fold step of `removeDuplicateInfo`. -/
def dedupStep (acc : List Str) (chunk : List JVal) : List Str :=
  acc ++ chunkKeep acc [] chunk

/-- A "good" accumulator: pairwise dissimilar in execution order, all
entries non-empty. -/
def accGood (acc : List Str) : Prop :=
  acc.Pairwise dissim ∧ ∀ s ∈ acc, s ≠ []

/-- Modelled from the spec, for the amended version of the batching claim: a
single left-to-right pass in which each sentence is compared against every
kept sentence of *earlier* blocks of 10 (`keptPrev`) plus **all** earlier
entries of its own block (`bpre`, kept or dropped); at each block boundary
(`cnt = 10`) the block's kept sentences `bk` are folded into `keptPrev` and
the block-local state resets. -/
def dedupPassAux (keptPrev bk : List Str) (bpre : List JVal) (cnt : Nat) :
    List JVal → List Str
  | [] => []
  | v :: rest =>
    let kp := if cnt = 10 then keptPrev ++ bk else keptPrev
    let bk' := if cnt = 10 then [] else bk
    let bp := if cnt = 10 then [] else bpre
    let cn := if cnt = 10 then 0 else cnt
    match v with
    | none => dedupPassAux kp bk' (bp ++ [v]) (cn + 1) rest
    | some s =>
      if s.isEmpty then dedupPassAux kp bk' (bp ++ [v]) (cn + 1) rest
      else if (kp.map some ++ bp).any (fun o => simJB s o) then
        dedupPassAux kp bk' (bp ++ [v]) (cn + 1) rest
      else s :: dedupPassAux kp (bk' ++ [s]) (bp ++ [some s]) (cn + 1) rest

/-- Modelled from the spec's words as amended: the block-aware single pass. -/
def dedupChunkSpec (xs : List JVal) : List Str := dedupPassAux [] [] [] 0 xs

/-! ## Concrete inputs used by counterexamples and witnesses -/

/-- Three sentences for which comparing against dropped same-chunk entries
changes the outcome: the second is similar to the first and is dropped, the
third is similar only to the dropped second. -/
def cexChunkList : List JVal := [some (str "xy"), some (str "xyz"), some (str "yz")]

/-- Four colon-bearing sentences whose similarity-cache keys collide inside a
single `removeDuplicateInfo` call. -/
def cexCollideList : List JVal :=
  [some (str "zz"), some (str "ababab:ababab"),
   some (str "ababab:zz"), some (str "ababab")]

/-- First call feeding the similarity cache: stores the similarity of
`("abc", "abc:abcabc")` under the key `"abc:abc:abcabc"`. -/
def cexCacheFeed : List JVal := [some (str "abc:abcabc"), some (str "abc")]

/-- Second call: the pair `("abc:abc", "abcabc")` produces the same key and is
served the other pair's value. -/
def cexCacheProbe : List JVal := [some (str "abcabc"), some (str "abc:abc")]

/-- A text longer than 100 characters. -/
def cexLongTextA : Str := List.replicate 100 'a' ++ str " hello world racing"

/-- A different text sharing the first 100 characters with `cexLongTextA`. -/
def cexLongTextB : Str := List.replicate 100 'a' ++ str " some other words entirely"

/-- One article whose combined text contains the phrase
`"alpha beta gamma"` twice. -/
def cexThemeArticle : JSArticle :=
  { title := some (str "x")
    snippet := some (str "alpha beta gamma alpha beta gamma")
    source := some (str "s") }

/-- Three valid articles used to drive the low-confidence branch. -/
def cexThreeArticles : List JSArticle :=
  [{ title := some (str "one"), snippet := some (str "alpha beta gamma"),
     source := some (str "s1") },
   { title := some (str "two"), snippet := some (str "delta epsilon zeta"),
     source := some (str "s2") },
   { title := some (str "three"), snippet := some (str "eta theta iota"),
     source := some (str "s3") }]

/-- The 45-sentence fill call: `"zz"`, then `"abab:abab"` (whose single
comparison stores the colliding key `"abab:abab:zz"` with value `0/9` first),
then 43 mutually dissimilar two-character sentences. -/
def c7FillList : List JVal :=
  [some (str "zz"), some (str "abab:abab"),
   some (str "cc"),
   some (str "cd"),
   some (str "ce"),
   some (str "cf"),
   some (str "cg"),
   some (str "ch"),
   some (str "ci"),
   some (str "dc"),
   some (str "dd"),
   some (str "de"),
   some (str "df"),
   some (str "dg"),
   some (str "dh"),
   some (str "di"),
   some (str "ec"),
   some (str "ed"),
   some (str "ee"),
   some (str "ef"),
   some (str "eg"),
   some (str "eh"),
   some (str "ei"),
   some (str "fc"),
   some (str "fd"),
   some (str "fe"),
   some (str "ff"),
   some (str "fg"),
   some (str "fh"),
   some (str "fi"),
   some (str "gc"),
   some (str "gd"),
   some (str "ge"),
   some (str "gf"),
   some (str "gg"),
   some (str "gh"),
   some (str "gi"),
   some (str "hc"),
   some (str "hd"),
   some (str "he"),
   some (str "hf"),
   some (str "hg"),
   some (str "hh"),
   some (str "hi"),
   some (str "ic")]

/-- The similarity-cache state an engine holds after one prior
`removeDuplicateInfo` call on `c7FillList` from a fresh cache: all 45
sentences are kept, so the call performs exactly one comparison per ordered
pair (later, earlier), storing 990 distinct keys in execution order with the
colliding key `simKey "abab:abab" "zz"` at the head.  Each entry is written
as `(simKey s o, diceVal s o)` for the concrete pair compared, so every
entry is visibly a genuinely computed cache record; the state is inlined
rather than recomputed because replaying 990 bounded-map insertions inside
the kernel is computationally infeasible. -/
def c7Cache : SimCache :=
  [(simKey (str "abab:abab") (str "zz"), diceVal (str "abab:abab") (str "zz")),
   (simKey (str "cc") (str "zz"), diceVal (str "cc") (str "zz")),
   (simKey (str "cc") (str "abab:abab"), diceVal (str "cc") (str "abab:abab")),
   (simKey (str "cd") (str "zz"), diceVal (str "cd") (str "zz")),
   (simKey (str "cd") (str "abab:abab"), diceVal (str "cd") (str "abab:abab")),
   (simKey (str "cd") (str "cc"), diceVal (str "cd") (str "cc")),
   (simKey (str "ce") (str "zz"), diceVal (str "ce") (str "zz")),
   (simKey (str "ce") (str "abab:abab"), diceVal (str "ce") (str "abab:abab")),
   (simKey (str "ce") (str "cc"), diceVal (str "ce") (str "cc")),
   (simKey (str "ce") (str "cd"), diceVal (str "ce") (str "cd")),
   (simKey (str "cf") (str "zz"), diceVal (str "cf") (str "zz")),
   (simKey (str "cf") (str "abab:abab"), diceVal (str "cf") (str "abab:abab")),
   (simKey (str "cf") (str "cc"), diceVal (str "cf") (str "cc")),
   (simKey (str "cf") (str "cd"), diceVal (str "cf") (str "cd")),
   (simKey (str "cf") (str "ce"), diceVal (str "cf") (str "ce")),
   (simKey (str "cg") (str "zz"), diceVal (str "cg") (str "zz")),
   (simKey (str "cg") (str "abab:abab"), diceVal (str "cg") (str "abab:abab")),
   (simKey (str "cg") (str "cc"), diceVal (str "cg") (str "cc")),
   (simKey (str "cg") (str "cd"), diceVal (str "cg") (str "cd")),
   (simKey (str "cg") (str "ce"), diceVal (str "cg") (str "ce")),
   (simKey (str "cg") (str "cf"), diceVal (str "cg") (str "cf")),
   (simKey (str "ch") (str "zz"), diceVal (str "ch") (str "zz")),
   (simKey (str "ch") (str "abab:abab"), diceVal (str "ch") (str "abab:abab")),
   (simKey (str "ch") (str "cc"), diceVal (str "ch") (str "cc")),
   (simKey (str "ch") (str "cd"), diceVal (str "ch") (str "cd")),
   (simKey (str "ch") (str "ce"), diceVal (str "ch") (str "ce")),
   (simKey (str "ch") (str "cf"), diceVal (str "ch") (str "cf")),
   (simKey (str "ch") (str "cg"), diceVal (str "ch") (str "cg")),
   (simKey (str "ci") (str "zz"), diceVal (str "ci") (str "zz")),
   (simKey (str "ci") (str "abab:abab"), diceVal (str "ci") (str "abab:abab")),
   (simKey (str "ci") (str "cc"), diceVal (str "ci") (str "cc")),
   (simKey (str "ci") (str "cd"), diceVal (str "ci") (str "cd")),
   (simKey (str "ci") (str "ce"), diceVal (str "ci") (str "ce")),
   (simKey (str "ci") (str "cf"), diceVal (str "ci") (str "cf")),
   (simKey (str "ci") (str "cg"), diceVal (str "ci") (str "cg")),
   (simKey (str "ci") (str "ch"), diceVal (str "ci") (str "ch")),
   (simKey (str "dc") (str "zz"), diceVal (str "dc") (str "zz")),
   (simKey (str "dc") (str "abab:abab"), diceVal (str "dc") (str "abab:abab")),
   (simKey (str "dc") (str "cc"), diceVal (str "dc") (str "cc")),
   (simKey (str "dc") (str "cd"), diceVal (str "dc") (str "cd")),
   (simKey (str "dc") (str "ce"), diceVal (str "dc") (str "ce")),
   (simKey (str "dc") (str "cf"), diceVal (str "dc") (str "cf")),
   (simKey (str "dc") (str "cg"), diceVal (str "dc") (str "cg")),
   (simKey (str "dc") (str "ch"), diceVal (str "dc") (str "ch")),
   (simKey (str "dc") (str "ci"), diceVal (str "dc") (str "ci")),
   (simKey (str "dd") (str "zz"), diceVal (str "dd") (str "zz")),
   (simKey (str "dd") (str "abab:abab"), diceVal (str "dd") (str "abab:abab")),
   (simKey (str "dd") (str "cc"), diceVal (str "dd") (str "cc")),
   (simKey (str "dd") (str "cd"), diceVal (str "dd") (str "cd")),
   (simKey (str "dd") (str "ce"), diceVal (str "dd") (str "ce")),
   (simKey (str "dd") (str "cf"), diceVal (str "dd") (str "cf")),
   (simKey (str "dd") (str "cg"), diceVal (str "dd") (str "cg")),
   (simKey (str "dd") (str "ch"), diceVal (str "dd") (str "ch")),
   (simKey (str "dd") (str "ci"), diceVal (str "dd") (str "ci")),
   (simKey (str "dd") (str "dc"), diceVal (str "dd") (str "dc")),
   (simKey (str "de") (str "zz"), diceVal (str "de") (str "zz")),
   (simKey (str "de") (str "abab:abab"), diceVal (str "de") (str "abab:abab")),
   (simKey (str "de") (str "cc"), diceVal (str "de") (str "cc")),
   (simKey (str "de") (str "cd"), diceVal (str "de") (str "cd")),
   (simKey (str "de") (str "ce"), diceVal (str "de") (str "ce")),
   (simKey (str "de") (str "cf"), diceVal (str "de") (str "cf")),
   (simKey (str "de") (str "cg"), diceVal (str "de") (str "cg")),
   (simKey (str "de") (str "ch"), diceVal (str "de") (str "ch")),
   (simKey (str "de") (str "ci"), diceVal (str "de") (str "ci")),
   (simKey (str "de") (str "dc"), diceVal (str "de") (str "dc")),
   (simKey (str "de") (str "dd"), diceVal (str "de") (str "dd")),
   (simKey (str "df") (str "zz"), diceVal (str "df") (str "zz")),
   (simKey (str "df") (str "abab:abab"), diceVal (str "df") (str "abab:abab")),
   (simKey (str "df") (str "cc"), diceVal (str "df") (str "cc")),
   (simKey (str "df") (str "cd"), diceVal (str "df") (str "cd")),
   (simKey (str "df") (str "ce"), diceVal (str "df") (str "ce")),
   (simKey (str "df") (str "cf"), diceVal (str "df") (str "cf")),
   (simKey (str "df") (str "cg"), diceVal (str "df") (str "cg")),
   (simKey (str "df") (str "ch"), diceVal (str "df") (str "ch")),
   (simKey (str "df") (str "ci"), diceVal (str "df") (str "ci")),
   (simKey (str "df") (str "dc"), diceVal (str "df") (str "dc")),
   (simKey (str "df") (str "dd"), diceVal (str "df") (str "dd")),
   (simKey (str "df") (str "de"), diceVal (str "df") (str "de")),
   (simKey (str "dg") (str "zz"), diceVal (str "dg") (str "zz")),
   (simKey (str "dg") (str "abab:abab"), diceVal (str "dg") (str "abab:abab")),
   (simKey (str "dg") (str "cc"), diceVal (str "dg") (str "cc")),
   (simKey (str "dg") (str "cd"), diceVal (str "dg") (str "cd")),
   (simKey (str "dg") (str "ce"), diceVal (str "dg") (str "ce")),
   (simKey (str "dg") (str "cf"), diceVal (str "dg") (str "cf")),
   (simKey (str "dg") (str "cg"), diceVal (str "dg") (str "cg")),
   (simKey (str "dg") (str "ch"), diceVal (str "dg") (str "ch")),
   (simKey (str "dg") (str "ci"), diceVal (str "dg") (str "ci")),
   (simKey (str "dg") (str "dc"), diceVal (str "dg") (str "dc")),
   (simKey (str "dg") (str "dd"), diceVal (str "dg") (str "dd")),
   (simKey (str "dg") (str "de"), diceVal (str "dg") (str "de")),
   (simKey (str "dg") (str "df"), diceVal (str "dg") (str "df")),
   (simKey (str "dh") (str "zz"), diceVal (str "dh") (str "zz")),
   (simKey (str "dh") (str "abab:abab"), diceVal (str "dh") (str "abab:abab")),
   (simKey (str "dh") (str "cc"), diceVal (str "dh") (str "cc")),
   (simKey (str "dh") (str "cd"), diceVal (str "dh") (str "cd")),
   (simKey (str "dh") (str "ce"), diceVal (str "dh") (str "ce")),
   (simKey (str "dh") (str "cf"), diceVal (str "dh") (str "cf")),
   (simKey (str "dh") (str "cg"), diceVal (str "dh") (str "cg")),
   (simKey (str "dh") (str "ch"), diceVal (str "dh") (str "ch")),
   (simKey (str "dh") (str "ci"), diceVal (str "dh") (str "ci")),
   (simKey (str "dh") (str "dc"), diceVal (str "dh") (str "dc")),
   (simKey (str "dh") (str "dd"), diceVal (str "dh") (str "dd")),
   (simKey (str "dh") (str "de"), diceVal (str "dh") (str "de")),
   (simKey (str "dh") (str "df"), diceVal (str "dh") (str "df")),
   (simKey (str "dh") (str "dg"), diceVal (str "dh") (str "dg")),
   (simKey (str "di") (str "zz"), diceVal (str "di") (str "zz")),
   (simKey (str "di") (str "abab:abab"), diceVal (str "di") (str "abab:abab")),
   (simKey (str "di") (str "cc"), diceVal (str "di") (str "cc")),
   (simKey (str "di") (str "cd"), diceVal (str "di") (str "cd")),
   (simKey (str "di") (str "ce"), diceVal (str "di") (str "ce")),
   (simKey (str "di") (str "cf"), diceVal (str "di") (str "cf")),
   (simKey (str "di") (str "cg"), diceVal (str "di") (str "cg")),
   (simKey (str "di") (str "ch"), diceVal (str "di") (str "ch")),
   (simKey (str "di") (str "ci"), diceVal (str "di") (str "ci")),
   (simKey (str "di") (str "dc"), diceVal (str "di") (str "dc")),
   (simKey (str "di") (str "dd"), diceVal (str "di") (str "dd")),
   (simKey (str "di") (str "de"), diceVal (str "di") (str "de")),
   (simKey (str "di") (str "df"), diceVal (str "di") (str "df")),
   (simKey (str "di") (str "dg"), diceVal (str "di") (str "dg")),
   (simKey (str "di") (str "dh"), diceVal (str "di") (str "dh")),
   (simKey (str "ec") (str "zz"), diceVal (str "ec") (str "zz")),
   (simKey (str "ec") (str "abab:abab"), diceVal (str "ec") (str "abab:abab")),
   (simKey (str "ec") (str "cc"), diceVal (str "ec") (str "cc")),
   (simKey (str "ec") (str "cd"), diceVal (str "ec") (str "cd")),
   (simKey (str "ec") (str "ce"), diceVal (str "ec") (str "ce")),
   (simKey (str "ec") (str "cf"), diceVal (str "ec") (str "cf")),
   (simKey (str "ec") (str "cg"), diceVal (str "ec") (str "cg")),
   (simKey (str "ec") (str "ch"), diceVal (str "ec") (str "ch")),
   (simKey (str "ec") (str "ci"), diceVal (str "ec") (str "ci")),
   (simKey (str "ec") (str "dc"), diceVal (str "ec") (str "dc")),
   (simKey (str "ec") (str "dd"), diceVal (str "ec") (str "dd")),
   (simKey (str "ec") (str "de"), diceVal (str "ec") (str "de")),
   (simKey (str "ec") (str "df"), diceVal (str "ec") (str "df")),
   (simKey (str "ec") (str "dg"), diceVal (str "ec") (str "dg")),
   (simKey (str "ec") (str "dh"), diceVal (str "ec") (str "dh")),
   (simKey (str "ec") (str "di"), diceVal (str "ec") (str "di")),
   (simKey (str "ed") (str "zz"), diceVal (str "ed") (str "zz")),
   (simKey (str "ed") (str "abab:abab"), diceVal (str "ed") (str "abab:abab")),
   (simKey (str "ed") (str "cc"), diceVal (str "ed") (str "cc")),
   (simKey (str "ed") (str "cd"), diceVal (str "ed") (str "cd")),
   (simKey (str "ed") (str "ce"), diceVal (str "ed") (str "ce")),
   (simKey (str "ed") (str "cf"), diceVal (str "ed") (str "cf")),
   (simKey (str "ed") (str "cg"), diceVal (str "ed") (str "cg")),
   (simKey (str "ed") (str "ch"), diceVal (str "ed") (str "ch")),
   (simKey (str "ed") (str "ci"), diceVal (str "ed") (str "ci")),
   (simKey (str "ed") (str "dc"), diceVal (str "ed") (str "dc")),
   (simKey (str "ed") (str "dd"), diceVal (str "ed") (str "dd")),
   (simKey (str "ed") (str "de"), diceVal (str "ed") (str "de")),
   (simKey (str "ed") (str "df"), diceVal (str "ed") (str "df")),
   (simKey (str "ed") (str "dg"), diceVal (str "ed") (str "dg")),
   (simKey (str "ed") (str "dh"), diceVal (str "ed") (str "dh")),
   (simKey (str "ed") (str "di"), diceVal (str "ed") (str "di")),
   (simKey (str "ed") (str "ec"), diceVal (str "ed") (str "ec")),
   (simKey (str "ee") (str "zz"), diceVal (str "ee") (str "zz")),
   (simKey (str "ee") (str "abab:abab"), diceVal (str "ee") (str "abab:abab")),
   (simKey (str "ee") (str "cc"), diceVal (str "ee") (str "cc")),
   (simKey (str "ee") (str "cd"), diceVal (str "ee") (str "cd")),
   (simKey (str "ee") (str "ce"), diceVal (str "ee") (str "ce")),
   (simKey (str "ee") (str "cf"), diceVal (str "ee") (str "cf")),
   (simKey (str "ee") (str "cg"), diceVal (str "ee") (str "cg")),
   (simKey (str "ee") (str "ch"), diceVal (str "ee") (str "ch")),
   (simKey (str "ee") (str "ci"), diceVal (str "ee") (str "ci")),
   (simKey (str "ee") (str "dc"), diceVal (str "ee") (str "dc")),
   (simKey (str "ee") (str "dd"), diceVal (str "ee") (str "dd")),
   (simKey (str "ee") (str "de"), diceVal (str "ee") (str "de")),
   (simKey (str "ee") (str "df"), diceVal (str "ee") (str "df")),
   (simKey (str "ee") (str "dg"), diceVal (str "ee") (str "dg")),
   (simKey (str "ee") (str "dh"), diceVal (str "ee") (str "dh")),
   (simKey (str "ee") (str "di"), diceVal (str "ee") (str "di")),
   (simKey (str "ee") (str "ec"), diceVal (str "ee") (str "ec")),
   (simKey (str "ee") (str "ed"), diceVal (str "ee") (str "ed")),
   (simKey (str "ef") (str "zz"), diceVal (str "ef") (str "zz")),
   (simKey (str "ef") (str "abab:abab"), diceVal (str "ef") (str "abab:abab")),
   (simKey (str "ef") (str "cc"), diceVal (str "ef") (str "cc")),
   (simKey (str "ef") (str "cd"), diceVal (str "ef") (str "cd")),
   (simKey (str "ef") (str "ce"), diceVal (str "ef") (str "ce")),
   (simKey (str "ef") (str "cf"), diceVal (str "ef") (str "cf")),
   (simKey (str "ef") (str "cg"), diceVal (str "ef") (str "cg")),
   (simKey (str "ef") (str "ch"), diceVal (str "ef") (str "ch")),
   (simKey (str "ef") (str "ci"), diceVal (str "ef") (str "ci")),
   (simKey (str "ef") (str "dc"), diceVal (str "ef") (str "dc")),
   (simKey (str "ef") (str "dd"), diceVal (str "ef") (str "dd")),
   (simKey (str "ef") (str "de"), diceVal (str "ef") (str "de")),
   (simKey (str "ef") (str "df"), diceVal (str "ef") (str "df")),
   (simKey (str "ef") (str "dg"), diceVal (str "ef") (str "dg")),
   (simKey (str "ef") (str "dh"), diceVal (str "ef") (str "dh")),
   (simKey (str "ef") (str "di"), diceVal (str "ef") (str "di")),
   (simKey (str "ef") (str "ec"), diceVal (str "ef") (str "ec")),
   (simKey (str "ef") (str "ed"), diceVal (str "ef") (str "ed")),
   (simKey (str "ef") (str "ee"), diceVal (str "ef") (str "ee")),
   (simKey (str "eg") (str "zz"), diceVal (str "eg") (str "zz")),
   (simKey (str "eg") (str "abab:abab"), diceVal (str "eg") (str "abab:abab")),
   (simKey (str "eg") (str "cc"), diceVal (str "eg") (str "cc")),
   (simKey (str "eg") (str "cd"), diceVal (str "eg") (str "cd")),
   (simKey (str "eg") (str "ce"), diceVal (str "eg") (str "ce")),
   (simKey (str "eg") (str "cf"), diceVal (str "eg") (str "cf")),
   (simKey (str "eg") (str "cg"), diceVal (str "eg") (str "cg")),
   (simKey (str "eg") (str "ch"), diceVal (str "eg") (str "ch")),
   (simKey (str "eg") (str "ci"), diceVal (str "eg") (str "ci")),
   (simKey (str "eg") (str "dc"), diceVal (str "eg") (str "dc")),
   (simKey (str "eg") (str "dd"), diceVal (str "eg") (str "dd")),
   (simKey (str "eg") (str "de"), diceVal (str "eg") (str "de")),
   (simKey (str "eg") (str "df"), diceVal (str "eg") (str "df")),
   (simKey (str "eg") (str "dg"), diceVal (str "eg") (str "dg")),
   (simKey (str "eg") (str "dh"), diceVal (str "eg") (str "dh")),
   (simKey (str "eg") (str "di"), diceVal (str "eg") (str "di")),
   (simKey (str "eg") (str "ec"), diceVal (str "eg") (str "ec")),
   (simKey (str "eg") (str "ed"), diceVal (str "eg") (str "ed")),
   (simKey (str "eg") (str "ee"), diceVal (str "eg") (str "ee")),
   (simKey (str "eg") (str "ef"), diceVal (str "eg") (str "ef")),
   (simKey (str "eh") (str "zz"), diceVal (str "eh") (str "zz")),
   (simKey (str "eh") (str "abab:abab"), diceVal (str "eh") (str "abab:abab")),
   (simKey (str "eh") (str "cc"), diceVal (str "eh") (str "cc")),
   (simKey (str "eh") (str "cd"), diceVal (str "eh") (str "cd")),
   (simKey (str "eh") (str "ce"), diceVal (str "eh") (str "ce")),
   (simKey (str "eh") (str "cf"), diceVal (str "eh") (str "cf")),
   (simKey (str "eh") (str "cg"), diceVal (str "eh") (str "cg")),
   (simKey (str "eh") (str "ch"), diceVal (str "eh") (str "ch")),
   (simKey (str "eh") (str "ci"), diceVal (str "eh") (str "ci")),
   (simKey (str "eh") (str "dc"), diceVal (str "eh") (str "dc")),
   (simKey (str "eh") (str "dd"), diceVal (str "eh") (str "dd")),
   (simKey (str "eh") (str "de"), diceVal (str "eh") (str "de")),
   (simKey (str "eh") (str "df"), diceVal (str "eh") (str "df")),
   (simKey (str "eh") (str "dg"), diceVal (str "eh") (str "dg")),
   (simKey (str "eh") (str "dh"), diceVal (str "eh") (str "dh")),
   (simKey (str "eh") (str "di"), diceVal (str "eh") (str "di")),
   (simKey (str "eh") (str "ec"), diceVal (str "eh") (str "ec")),
   (simKey (str "eh") (str "ed"), diceVal (str "eh") (str "ed")),
   (simKey (str "eh") (str "ee"), diceVal (str "eh") (str "ee")),
   (simKey (str "eh") (str "ef"), diceVal (str "eh") (str "ef")),
   (simKey (str "eh") (str "eg"), diceVal (str "eh") (str "eg")),
   (simKey (str "ei") (str "zz"), diceVal (str "ei") (str "zz")),
   (simKey (str "ei") (str "abab:abab"), diceVal (str "ei") (str "abab:abab")),
   (simKey (str "ei") (str "cc"), diceVal (str "ei") (str "cc")),
   (simKey (str "ei") (str "cd"), diceVal (str "ei") (str "cd")),
   (simKey (str "ei") (str "ce"), diceVal (str "ei") (str "ce")),
   (simKey (str "ei") (str "cf"), diceVal (str "ei") (str "cf")),
   (simKey (str "ei") (str "cg"), diceVal (str "ei") (str "cg")),
   (simKey (str "ei") (str "ch"), diceVal (str "ei") (str "ch")),
   (simKey (str "ei") (str "ci"), diceVal (str "ei") (str "ci")),
   (simKey (str "ei") (str "dc"), diceVal (str "ei") (str "dc")),
   (simKey (str "ei") (str "dd"), diceVal (str "ei") (str "dd")),
   (simKey (str "ei") (str "de"), diceVal (str "ei") (str "de")),
   (simKey (str "ei") (str "df"), diceVal (str "ei") (str "df")),
   (simKey (str "ei") (str "dg"), diceVal (str "ei") (str "dg")),
   (simKey (str "ei") (str "dh"), diceVal (str "ei") (str "dh")),
   (simKey (str "ei") (str "di"), diceVal (str "ei") (str "di")),
   (simKey (str "ei") (str "ec"), diceVal (str "ei") (str "ec")),
   (simKey (str "ei") (str "ed"), diceVal (str "ei") (str "ed")),
   (simKey (str "ei") (str "ee"), diceVal (str "ei") (str "ee")),
   (simKey (str "ei") (str "ef"), diceVal (str "ei") (str "ef")),
   (simKey (str "ei") (str "eg"), diceVal (str "ei") (str "eg")),
   (simKey (str "ei") (str "eh"), diceVal (str "ei") (str "eh")),
   (simKey (str "fc") (str "zz"), diceVal (str "fc") (str "zz")),
   (simKey (str "fc") (str "abab:abab"), diceVal (str "fc") (str "abab:abab")),
   (simKey (str "fc") (str "cc"), diceVal (str "fc") (str "cc")),
   (simKey (str "fc") (str "cd"), diceVal (str "fc") (str "cd")),
   (simKey (str "fc") (str "ce"), diceVal (str "fc") (str "ce")),
   (simKey (str "fc") (str "cf"), diceVal (str "fc") (str "cf")),
   (simKey (str "fc") (str "cg"), diceVal (str "fc") (str "cg")),
   (simKey (str "fc") (str "ch"), diceVal (str "fc") (str "ch")),
   (simKey (str "fc") (str "ci"), diceVal (str "fc") (str "ci")),
   (simKey (str "fc") (str "dc"), diceVal (str "fc") (str "dc")),
   (simKey (str "fc") (str "dd"), diceVal (str "fc") (str "dd")),
   (simKey (str "fc") (str "de"), diceVal (str "fc") (str "de")),
   (simKey (str "fc") (str "df"), diceVal (str "fc") (str "df")),
   (simKey (str "fc") (str "dg"), diceVal (str "fc") (str "dg")),
   (simKey (str "fc") (str "dh"), diceVal (str "fc") (str "dh")),
   (simKey (str "fc") (str "di"), diceVal (str "fc") (str "di")),
   (simKey (str "fc") (str "ec"), diceVal (str "fc") (str "ec")),
   (simKey (str "fc") (str "ed"), diceVal (str "fc") (str "ed")),
   (simKey (str "fc") (str "ee"), diceVal (str "fc") (str "ee")),
   (simKey (str "fc") (str "ef"), diceVal (str "fc") (str "ef")),
   (simKey (str "fc") (str "eg"), diceVal (str "fc") (str "eg")),
   (simKey (str "fc") (str "eh"), diceVal (str "fc") (str "eh")),
   (simKey (str "fc") (str "ei"), diceVal (str "fc") (str "ei")),
   (simKey (str "fd") (str "zz"), diceVal (str "fd") (str "zz")),
   (simKey (str "fd") (str "abab:abab"), diceVal (str "fd") (str "abab:abab")),
   (simKey (str "fd") (str "cc"), diceVal (str "fd") (str "cc")),
   (simKey (str "fd") (str "cd"), diceVal (str "fd") (str "cd")),
   (simKey (str "fd") (str "ce"), diceVal (str "fd") (str "ce")),
   (simKey (str "fd") (str "cf"), diceVal (str "fd") (str "cf")),
   (simKey (str "fd") (str "cg"), diceVal (str "fd") (str "cg")),
   (simKey (str "fd") (str "ch"), diceVal (str "fd") (str "ch")),
   (simKey (str "fd") (str "ci"), diceVal (str "fd") (str "ci")),
   (simKey (str "fd") (str "dc"), diceVal (str "fd") (str "dc")),
   (simKey (str "fd") (str "dd"), diceVal (str "fd") (str "dd")),
   (simKey (str "fd") (str "de"), diceVal (str "fd") (str "de")),
   (simKey (str "fd") (str "df"), diceVal (str "fd") (str "df")),
   (simKey (str "fd") (str "dg"), diceVal (str "fd") (str "dg")),
   (simKey (str "fd") (str "dh"), diceVal (str "fd") (str "dh")),
   (simKey (str "fd") (str "di"), diceVal (str "fd") (str "di")),
   (simKey (str "fd") (str "ec"), diceVal (str "fd") (str "ec")),
   (simKey (str "fd") (str "ed"), diceVal (str "fd") (str "ed")),
   (simKey (str "fd") (str "ee"), diceVal (str "fd") (str "ee")),
   (simKey (str "fd") (str "ef"), diceVal (str "fd") (str "ef")),
   (simKey (str "fd") (str "eg"), diceVal (str "fd") (str "eg")),
   (simKey (str "fd") (str "eh"), diceVal (str "fd") (str "eh")),
   (simKey (str "fd") (str "ei"), diceVal (str "fd") (str "ei")),
   (simKey (str "fd") (str "fc"), diceVal (str "fd") (str "fc")),
   (simKey (str "fe") (str "zz"), diceVal (str "fe") (str "zz")),
   (simKey (str "fe") (str "abab:abab"), diceVal (str "fe") (str "abab:abab")),
   (simKey (str "fe") (str "cc"), diceVal (str "fe") (str "cc")),
   (simKey (str "fe") (str "cd"), diceVal (str "fe") (str "cd")),
   (simKey (str "fe") (str "ce"), diceVal (str "fe") (str "ce")),
   (simKey (str "fe") (str "cf"), diceVal (str "fe") (str "cf")),
   (simKey (str "fe") (str "cg"), diceVal (str "fe") (str "cg")),
   (simKey (str "fe") (str "ch"), diceVal (str "fe") (str "ch")),
   (simKey (str "fe") (str "ci"), diceVal (str "fe") (str "ci")),
   (simKey (str "fe") (str "dc"), diceVal (str "fe") (str "dc")),
   (simKey (str "fe") (str "dd"), diceVal (str "fe") (str "dd")),
   (simKey (str "fe") (str "de"), diceVal (str "fe") (str "de")),
   (simKey (str "fe") (str "df"), diceVal (str "fe") (str "df")),
   (simKey (str "fe") (str "dg"), diceVal (str "fe") (str "dg")),
   (simKey (str "fe") (str "dh"), diceVal (str "fe") (str "dh")),
   (simKey (str "fe") (str "di"), diceVal (str "fe") (str "di")),
   (simKey (str "fe") (str "ec"), diceVal (str "fe") (str "ec")),
   (simKey (str "fe") (str "ed"), diceVal (str "fe") (str "ed")),
   (simKey (str "fe") (str "ee"), diceVal (str "fe") (str "ee")),
   (simKey (str "fe") (str "ef"), diceVal (str "fe") (str "ef")),
   (simKey (str "fe") (str "eg"), diceVal (str "fe") (str "eg")),
   (simKey (str "fe") (str "eh"), diceVal (str "fe") (str "eh")),
   (simKey (str "fe") (str "ei"), diceVal (str "fe") (str "ei")),
   (simKey (str "fe") (str "fc"), diceVal (str "fe") (str "fc")),
   (simKey (str "fe") (str "fd"), diceVal (str "fe") (str "fd")),
   (simKey (str "ff") (str "zz"), diceVal (str "ff") (str "zz")),
   (simKey (str "ff") (str "abab:abab"), diceVal (str "ff") (str "abab:abab")),
   (simKey (str "ff") (str "cc"), diceVal (str "ff") (str "cc")),
   (simKey (str "ff") (str "cd"), diceVal (str "ff") (str "cd")),
   (simKey (str "ff") (str "ce"), diceVal (str "ff") (str "ce")),
   (simKey (str "ff") (str "cf"), diceVal (str "ff") (str "cf")),
   (simKey (str "ff") (str "cg"), diceVal (str "ff") (str "cg")),
   (simKey (str "ff") (str "ch"), diceVal (str "ff") (str "ch")),
   (simKey (str "ff") (str "ci"), diceVal (str "ff") (str "ci")),
   (simKey (str "ff") (str "dc"), diceVal (str "ff") (str "dc")),
   (simKey (str "ff") (str "dd"), diceVal (str "ff") (str "dd")),
   (simKey (str "ff") (str "de"), diceVal (str "ff") (str "de")),
   (simKey (str "ff") (str "df"), diceVal (str "ff") (str "df")),
   (simKey (str "ff") (str "dg"), diceVal (str "ff") (str "dg")),
   (simKey (str "ff") (str "dh"), diceVal (str "ff") (str "dh")),
   (simKey (str "ff") (str "di"), diceVal (str "ff") (str "di")),
   (simKey (str "ff") (str "ec"), diceVal (str "ff") (str "ec")),
   (simKey (str "ff") (str "ed"), diceVal (str "ff") (str "ed")),
   (simKey (str "ff") (str "ee"), diceVal (str "ff") (str "ee")),
   (simKey (str "ff") (str "ef"), diceVal (str "ff") (str "ef")),
   (simKey (str "ff") (str "eg"), diceVal (str "ff") (str "eg")),
   (simKey (str "ff") (str "eh"), diceVal (str "ff") (str "eh")),
   (simKey (str "ff") (str "ei"), diceVal (str "ff") (str "ei")),
   (simKey (str "ff") (str "fc"), diceVal (str "ff") (str "fc")),
   (simKey (str "ff") (str "fd"), diceVal (str "ff") (str "fd")),
   (simKey (str "ff") (str "fe"), diceVal (str "ff") (str "fe")),
   (simKey (str "fg") (str "zz"), diceVal (str "fg") (str "zz")),
   (simKey (str "fg") (str "abab:abab"), diceVal (str "fg") (str "abab:abab")),
   (simKey (str "fg") (str "cc"), diceVal (str "fg") (str "cc")),
   (simKey (str "fg") (str "cd"), diceVal (str "fg") (str "cd")),
   (simKey (str "fg") (str "ce"), diceVal (str "fg") (str "ce")),
   (simKey (str "fg") (str "cf"), diceVal (str "fg") (str "cf")),
   (simKey (str "fg") (str "cg"), diceVal (str "fg") (str "cg")),
   (simKey (str "fg") (str "ch"), diceVal (str "fg") (str "ch")),
   (simKey (str "fg") (str "ci"), diceVal (str "fg") (str "ci")),
   (simKey (str "fg") (str "dc"), diceVal (str "fg") (str "dc")),
   (simKey (str "fg") (str "dd"), diceVal (str "fg") (str "dd")),
   (simKey (str "fg") (str "de"), diceVal (str "fg") (str "de")),
   (simKey (str "fg") (str "df"), diceVal (str "fg") (str "df")),
   (simKey (str "fg") (str "dg"), diceVal (str "fg") (str "dg")),
   (simKey (str "fg") (str "dh"), diceVal (str "fg") (str "dh")),
   (simKey (str "fg") (str "di"), diceVal (str "fg") (str "di")),
   (simKey (str "fg") (str "ec"), diceVal (str "fg") (str "ec")),
   (simKey (str "fg") (str "ed"), diceVal (str "fg") (str "ed")),
   (simKey (str "fg") (str "ee"), diceVal (str "fg") (str "ee")),
   (simKey (str "fg") (str "ef"), diceVal (str "fg") (str "ef")),
   (simKey (str "fg") (str "eg"), diceVal (str "fg") (str "eg")),
   (simKey (str "fg") (str "eh"), diceVal (str "fg") (str "eh")),
   (simKey (str "fg") (str "ei"), diceVal (str "fg") (str "ei")),
   (simKey (str "fg") (str "fc"), diceVal (str "fg") (str "fc")),
   (simKey (str "fg") (str "fd"), diceVal (str "fg") (str "fd")),
   (simKey (str "fg") (str "fe"), diceVal (str "fg") (str "fe")),
   (simKey (str "fg") (str "ff"), diceVal (str "fg") (str "ff")),
   (simKey (str "fh") (str "zz"), diceVal (str "fh") (str "zz")),
   (simKey (str "fh") (str "abab:abab"), diceVal (str "fh") (str "abab:abab")),
   (simKey (str "fh") (str "cc"), diceVal (str "fh") (str "cc")),
   (simKey (str "fh") (str "cd"), diceVal (str "fh") (str "cd")),
   (simKey (str "fh") (str "ce"), diceVal (str "fh") (str "ce")),
   (simKey (str "fh") (str "cf"), diceVal (str "fh") (str "cf")),
   (simKey (str "fh") (str "cg"), diceVal (str "fh") (str "cg")),
   (simKey (str "fh") (str "ch"), diceVal (str "fh") (str "ch")),
   (simKey (str "fh") (str "ci"), diceVal (str "fh") (str "ci")),
   (simKey (str "fh") (str "dc"), diceVal (str "fh") (str "dc")),
   (simKey (str "fh") (str "dd"), diceVal (str "fh") (str "dd")),
   (simKey (str "fh") (str "de"), diceVal (str "fh") (str "de")),
   (simKey (str "fh") (str "df"), diceVal (str "fh") (str "df")),
   (simKey (str "fh") (str "dg"), diceVal (str "fh") (str "dg")),
   (simKey (str "fh") (str "dh"), diceVal (str "fh") (str "dh")),
   (simKey (str "fh") (str "di"), diceVal (str "fh") (str "di")),
   (simKey (str "fh") (str "ec"), diceVal (str "fh") (str "ec")),
   (simKey (str "fh") (str "ed"), diceVal (str "fh") (str "ed")),
   (simKey (str "fh") (str "ee"), diceVal (str "fh") (str "ee")),
   (simKey (str "fh") (str "ef"), diceVal (str "fh") (str "ef")),
   (simKey (str "fh") (str "eg"), diceVal (str "fh") (str "eg")),
   (simKey (str "fh") (str "eh"), diceVal (str "fh") (str "eh")),
   (simKey (str "fh") (str "ei"), diceVal (str "fh") (str "ei")),
   (simKey (str "fh") (str "fc"), diceVal (str "fh") (str "fc")),
   (simKey (str "fh") (str "fd"), diceVal (str "fh") (str "fd")),
   (simKey (str "fh") (str "fe"), diceVal (str "fh") (str "fe")),
   (simKey (str "fh") (str "ff"), diceVal (str "fh") (str "ff")),
   (simKey (str "fh") (str "fg"), diceVal (str "fh") (str "fg")),
   (simKey (str "fi") (str "zz"), diceVal (str "fi") (str "zz")),
   (simKey (str "fi") (str "abab:abab"), diceVal (str "fi") (str "abab:abab")),
   (simKey (str "fi") (str "cc"), diceVal (str "fi") (str "cc")),
   (simKey (str "fi") (str "cd"), diceVal (str "fi") (str "cd")),
   (simKey (str "fi") (str "ce"), diceVal (str "fi") (str "ce")),
   (simKey (str "fi") (str "cf"), diceVal (str "fi") (str "cf")),
   (simKey (str "fi") (str "cg"), diceVal (str "fi") (str "cg")),
   (simKey (str "fi") (str "ch"), diceVal (str "fi") (str "ch")),
   (simKey (str "fi") (str "ci"), diceVal (str "fi") (str "ci")),
   (simKey (str "fi") (str "dc"), diceVal (str "fi") (str "dc")),
   (simKey (str "fi") (str "dd"), diceVal (str "fi") (str "dd")),
   (simKey (str "fi") (str "de"), diceVal (str "fi") (str "de")),
   (simKey (str "fi") (str "df"), diceVal (str "fi") (str "df")),
   (simKey (str "fi") (str "dg"), diceVal (str "fi") (str "dg")),
   (simKey (str "fi") (str "dh"), diceVal (str "fi") (str "dh")),
   (simKey (str "fi") (str "di"), diceVal (str "fi") (str "di")),
   (simKey (str "fi") (str "ec"), diceVal (str "fi") (str "ec")),
   (simKey (str "fi") (str "ed"), diceVal (str "fi") (str "ed")),
   (simKey (str "fi") (str "ee"), diceVal (str "fi") (str "ee")),
   (simKey (str "fi") (str "ef"), diceVal (str "fi") (str "ef")),
   (simKey (str "fi") (str "eg"), diceVal (str "fi") (str "eg")),
   (simKey (str "fi") (str "eh"), diceVal (str "fi") (str "eh")),
   (simKey (str "fi") (str "ei"), diceVal (str "fi") (str "ei")),
   (simKey (str "fi") (str "fc"), diceVal (str "fi") (str "fc")),
   (simKey (str "fi") (str "fd"), diceVal (str "fi") (str "fd")),
   (simKey (str "fi") (str "fe"), diceVal (str "fi") (str "fe")),
   (simKey (str "fi") (str "ff"), diceVal (str "fi") (str "ff")),
   (simKey (str "fi") (str "fg"), diceVal (str "fi") (str "fg")),
   (simKey (str "fi") (str "fh"), diceVal (str "fi") (str "fh")),
   (simKey (str "gc") (str "zz"), diceVal (str "gc") (str "zz")),
   (simKey (str "gc") (str "abab:abab"), diceVal (str "gc") (str "abab:abab")),
   (simKey (str "gc") (str "cc"), diceVal (str "gc") (str "cc")),
   (simKey (str "gc") (str "cd"), diceVal (str "gc") (str "cd")),
   (simKey (str "gc") (str "ce"), diceVal (str "gc") (str "ce")),
   (simKey (str "gc") (str "cf"), diceVal (str "gc") (str "cf")),
   (simKey (str "gc") (str "cg"), diceVal (str "gc") (str "cg")),
   (simKey (str "gc") (str "ch"), diceVal (str "gc") (str "ch")),
   (simKey (str "gc") (str "ci"), diceVal (str "gc") (str "ci")),
   (simKey (str "gc") (str "dc"), diceVal (str "gc") (str "dc")),
   (simKey (str "gc") (str "dd"), diceVal (str "gc") (str "dd")),
   (simKey (str "gc") (str "de"), diceVal (str "gc") (str "de")),
   (simKey (str "gc") (str "df"), diceVal (str "gc") (str "df")),
   (simKey (str "gc") (str "dg"), diceVal (str "gc") (str "dg")),
   (simKey (str "gc") (str "dh"), diceVal (str "gc") (str "dh")),
   (simKey (str "gc") (str "di"), diceVal (str "gc") (str "di")),
   (simKey (str "gc") (str "ec"), diceVal (str "gc") (str "ec")),
   (simKey (str "gc") (str "ed"), diceVal (str "gc") (str "ed")),
   (simKey (str "gc") (str "ee"), diceVal (str "gc") (str "ee")),
   (simKey (str "gc") (str "ef"), diceVal (str "gc") (str "ef")),
   (simKey (str "gc") (str "eg"), diceVal (str "gc") (str "eg")),
   (simKey (str "gc") (str "eh"), diceVal (str "gc") (str "eh")),
   (simKey (str "gc") (str "ei"), diceVal (str "gc") (str "ei")),
   (simKey (str "gc") (str "fc"), diceVal (str "gc") (str "fc")),
   (simKey (str "gc") (str "fd"), diceVal (str "gc") (str "fd")),
   (simKey (str "gc") (str "fe"), diceVal (str "gc") (str "fe")),
   (simKey (str "gc") (str "ff"), diceVal (str "gc") (str "ff")),
   (simKey (str "gc") (str "fg"), diceVal (str "gc") (str "fg")),
   (simKey (str "gc") (str "fh"), diceVal (str "gc") (str "fh")),
   (simKey (str "gc") (str "fi"), diceVal (str "gc") (str "fi")),
   (simKey (str "gd") (str "zz"), diceVal (str "gd") (str "zz")),
   (simKey (str "gd") (str "abab:abab"), diceVal (str "gd") (str "abab:abab")),
   (simKey (str "gd") (str "cc"), diceVal (str "gd") (str "cc")),
   (simKey (str "gd") (str "cd"), diceVal (str "gd") (str "cd")),
   (simKey (str "gd") (str "ce"), diceVal (str "gd") (str "ce")),
   (simKey (str "gd") (str "cf"), diceVal (str "gd") (str "cf")),
   (simKey (str "gd") (str "cg"), diceVal (str "gd") (str "cg")),
   (simKey (str "gd") (str "ch"), diceVal (str "gd") (str "ch")),
   (simKey (str "gd") (str "ci"), diceVal (str "gd") (str "ci")),
   (simKey (str "gd") (str "dc"), diceVal (str "gd") (str "dc")),
   (simKey (str "gd") (str "dd"), diceVal (str "gd") (str "dd")),
   (simKey (str "gd") (str "de"), diceVal (str "gd") (str "de")),
   (simKey (str "gd") (str "df"), diceVal (str "gd") (str "df")),
   (simKey (str "gd") (str "dg"), diceVal (str "gd") (str "dg")),
   (simKey (str "gd") (str "dh"), diceVal (str "gd") (str "dh")),
   (simKey (str "gd") (str "di"), diceVal (str "gd") (str "di")),
   (simKey (str "gd") (str "ec"), diceVal (str "gd") (str "ec")),
   (simKey (str "gd") (str "ed"), diceVal (str "gd") (str "ed")),
   (simKey (str "gd") (str "ee"), diceVal (str "gd") (str "ee")),
   (simKey (str "gd") (str "ef"), diceVal (str "gd") (str "ef")),
   (simKey (str "gd") (str "eg"), diceVal (str "gd") (str "eg")),
   (simKey (str "gd") (str "eh"), diceVal (str "gd") (str "eh")),
   (simKey (str "gd") (str "ei"), diceVal (str "gd") (str "ei")),
   (simKey (str "gd") (str "fc"), diceVal (str "gd") (str "fc")),
   (simKey (str "gd") (str "fd"), diceVal (str "gd") (str "fd")),
   (simKey (str "gd") (str "fe"), diceVal (str "gd") (str "fe")),
   (simKey (str "gd") (str "ff"), diceVal (str "gd") (str "ff")),
   (simKey (str "gd") (str "fg"), diceVal (str "gd") (str "fg")),
   (simKey (str "gd") (str "fh"), diceVal (str "gd") (str "fh")),
   (simKey (str "gd") (str "fi"), diceVal (str "gd") (str "fi")),
   (simKey (str "gd") (str "gc"), diceVal (str "gd") (str "gc")),
   (simKey (str "ge") (str "zz"), diceVal (str "ge") (str "zz")),
   (simKey (str "ge") (str "abab:abab"), diceVal (str "ge") (str "abab:abab")),
   (simKey (str "ge") (str "cc"), diceVal (str "ge") (str "cc")),
   (simKey (str "ge") (str "cd"), diceVal (str "ge") (str "cd")),
   (simKey (str "ge") (str "ce"), diceVal (str "ge") (str "ce")),
   (simKey (str "ge") (str "cf"), diceVal (str "ge") (str "cf")),
   (simKey (str "ge") (str "cg"), diceVal (str "ge") (str "cg")),
   (simKey (str "ge") (str "ch"), diceVal (str "ge") (str "ch")),
   (simKey (str "ge") (str "ci"), diceVal (str "ge") (str "ci")),
   (simKey (str "ge") (str "dc"), diceVal (str "ge") (str "dc")),
   (simKey (str "ge") (str "dd"), diceVal (str "ge") (str "dd")),
   (simKey (str "ge") (str "de"), diceVal (str "ge") (str "de")),
   (simKey (str "ge") (str "df"), diceVal (str "ge") (str "df")),
   (simKey (str "ge") (str "dg"), diceVal (str "ge") (str "dg")),
   (simKey (str "ge") (str "dh"), diceVal (str "ge") (str "dh")),
   (simKey (str "ge") (str "di"), diceVal (str "ge") (str "di")),
   (simKey (str "ge") (str "ec"), diceVal (str "ge") (str "ec")),
   (simKey (str "ge") (str "ed"), diceVal (str "ge") (str "ed")),
   (simKey (str "ge") (str "ee"), diceVal (str "ge") (str "ee")),
   (simKey (str "ge") (str "ef"), diceVal (str "ge") (str "ef")),
   (simKey (str "ge") (str "eg"), diceVal (str "ge") (str "eg")),
   (simKey (str "ge") (str "eh"), diceVal (str "ge") (str "eh")),
   (simKey (str "ge") (str "ei"), diceVal (str "ge") (str "ei")),
   (simKey (str "ge") (str "fc"), diceVal (str "ge") (str "fc")),
   (simKey (str "ge") (str "fd"), diceVal (str "ge") (str "fd")),
   (simKey (str "ge") (str "fe"), diceVal (str "ge") (str "fe")),
   (simKey (str "ge") (str "ff"), diceVal (str "ge") (str "ff")),
   (simKey (str "ge") (str "fg"), diceVal (str "ge") (str "fg")),
   (simKey (str "ge") (str "fh"), diceVal (str "ge") (str "fh")),
   (simKey (str "ge") (str "fi"), diceVal (str "ge") (str "fi")),
   (simKey (str "ge") (str "gc"), diceVal (str "ge") (str "gc")),
   (simKey (str "ge") (str "gd"), diceVal (str "ge") (str "gd")),
   (simKey (str "gf") (str "zz"), diceVal (str "gf") (str "zz")),
   (simKey (str "gf") (str "abab:abab"), diceVal (str "gf") (str "abab:abab")),
   (simKey (str "gf") (str "cc"), diceVal (str "gf") (str "cc")),
   (simKey (str "gf") (str "cd"), diceVal (str "gf") (str "cd")),
   (simKey (str "gf") (str "ce"), diceVal (str "gf") (str "ce")),
   (simKey (str "gf") (str "cf"), diceVal (str "gf") (str "cf")),
   (simKey (str "gf") (str "cg"), diceVal (str "gf") (str "cg")),
   (simKey (str "gf") (str "ch"), diceVal (str "gf") (str "ch")),
   (simKey (str "gf") (str "ci"), diceVal (str "gf") (str "ci")),
   (simKey (str "gf") (str "dc"), diceVal (str "gf") (str "dc")),
   (simKey (str "gf") (str "dd"), diceVal (str "gf") (str "dd")),
   (simKey (str "gf") (str "de"), diceVal (str "gf") (str "de")),
   (simKey (str "gf") (str "df"), diceVal (str "gf") (str "df")),
   (simKey (str "gf") (str "dg"), diceVal (str "gf") (str "dg")),
   (simKey (str "gf") (str "dh"), diceVal (str "gf") (str "dh")),
   (simKey (str "gf") (str "di"), diceVal (str "gf") (str "di")),
   (simKey (str "gf") (str "ec"), diceVal (str "gf") (str "ec")),
   (simKey (str "gf") (str "ed"), diceVal (str "gf") (str "ed")),
   (simKey (str "gf") (str "ee"), diceVal (str "gf") (str "ee")),
   (simKey (str "gf") (str "ef"), diceVal (str "gf") (str "ef")),
   (simKey (str "gf") (str "eg"), diceVal (str "gf") (str "eg")),
   (simKey (str "gf") (str "eh"), diceVal (str "gf") (str "eh")),
   (simKey (str "gf") (str "ei"), diceVal (str "gf") (str "ei")),
   (simKey (str "gf") (str "fc"), diceVal (str "gf") (str "fc")),
   (simKey (str "gf") (str "fd"), diceVal (str "gf") (str "fd")),
   (simKey (str "gf") (str "fe"), diceVal (str "gf") (str "fe")),
   (simKey (str "gf") (str "ff"), diceVal (str "gf") (str "ff")),
   (simKey (str "gf") (str "fg"), diceVal (str "gf") (str "fg")),
   (simKey (str "gf") (str "fh"), diceVal (str "gf") (str "fh")),
   (simKey (str "gf") (str "fi"), diceVal (str "gf") (str "fi")),
   (simKey (str "gf") (str "gc"), diceVal (str "gf") (str "gc")),
   (simKey (str "gf") (str "gd"), diceVal (str "gf") (str "gd")),
   (simKey (str "gf") (str "ge"), diceVal (str "gf") (str "ge")),
   (simKey (str "gg") (str "zz"), diceVal (str "gg") (str "zz")),
   (simKey (str "gg") (str "abab:abab"), diceVal (str "gg") (str "abab:abab")),
   (simKey (str "gg") (str "cc"), diceVal (str "gg") (str "cc")),
   (simKey (str "gg") (str "cd"), diceVal (str "gg") (str "cd")),
   (simKey (str "gg") (str "ce"), diceVal (str "gg") (str "ce")),
   (simKey (str "gg") (str "cf"), diceVal (str "gg") (str "cf")),
   (simKey (str "gg") (str "cg"), diceVal (str "gg") (str "cg")),
   (simKey (str "gg") (str "ch"), diceVal (str "gg") (str "ch")),
   (simKey (str "gg") (str "ci"), diceVal (str "gg") (str "ci")),
   (simKey (str "gg") (str "dc"), diceVal (str "gg") (str "dc")),
   (simKey (str "gg") (str "dd"), diceVal (str "gg") (str "dd")),
   (simKey (str "gg") (str "de"), diceVal (str "gg") (str "de")),
   (simKey (str "gg") (str "df"), diceVal (str "gg") (str "df")),
   (simKey (str "gg") (str "dg"), diceVal (str "gg") (str "dg")),
   (simKey (str "gg") (str "dh"), diceVal (str "gg") (str "dh")),
   (simKey (str "gg") (str "di"), diceVal (str "gg") (str "di")),
   (simKey (str "gg") (str "ec"), diceVal (str "gg") (str "ec")),
   (simKey (str "gg") (str "ed"), diceVal (str "gg") (str "ed")),
   (simKey (str "gg") (str "ee"), diceVal (str "gg") (str "ee")),
   (simKey (str "gg") (str "ef"), diceVal (str "gg") (str "ef")),
   (simKey (str "gg") (str "eg"), diceVal (str "gg") (str "eg")),
   (simKey (str "gg") (str "eh"), diceVal (str "gg") (str "eh")),
   (simKey (str "gg") (str "ei"), diceVal (str "gg") (str "ei")),
   (simKey (str "gg") (str "fc"), diceVal (str "gg") (str "fc")),
   (simKey (str "gg") (str "fd"), diceVal (str "gg") (str "fd")),
   (simKey (str "gg") (str "fe"), diceVal (str "gg") (str "fe")),
   (simKey (str "gg") (str "ff"), diceVal (str "gg") (str "ff")),
   (simKey (str "gg") (str "fg"), diceVal (str "gg") (str "fg")),
   (simKey (str "gg") (str "fh"), diceVal (str "gg") (str "fh")),
   (simKey (str "gg") (str "fi"), diceVal (str "gg") (str "fi")),
   (simKey (str "gg") (str "gc"), diceVal (str "gg") (str "gc")),
   (simKey (str "gg") (str "gd"), diceVal (str "gg") (str "gd")),
   (simKey (str "gg") (str "ge"), diceVal (str "gg") (str "ge")),
   (simKey (str "gg") (str "gf"), diceVal (str "gg") (str "gf")),
   (simKey (str "gh") (str "zz"), diceVal (str "gh") (str "zz")),
   (simKey (str "gh") (str "abab:abab"), diceVal (str "gh") (str "abab:abab")),
   (simKey (str "gh") (str "cc"), diceVal (str "gh") (str "cc")),
   (simKey (str "gh") (str "cd"), diceVal (str "gh") (str "cd")),
   (simKey (str "gh") (str "ce"), diceVal (str "gh") (str "ce")),
   (simKey (str "gh") (str "cf"), diceVal (str "gh") (str "cf")),
   (simKey (str "gh") (str "cg"), diceVal (str "gh") (str "cg")),
   (simKey (str "gh") (str "ch"), diceVal (str "gh") (str "ch")),
   (simKey (str "gh") (str "ci"), diceVal (str "gh") (str "ci")),
   (simKey (str "gh") (str "dc"), diceVal (str "gh") (str "dc")),
   (simKey (str "gh") (str "dd"), diceVal (str "gh") (str "dd")),
   (simKey (str "gh") (str "de"), diceVal (str "gh") (str "de")),
   (simKey (str "gh") (str "df"), diceVal (str "gh") (str "df")),
   (simKey (str "gh") (str "dg"), diceVal (str "gh") (str "dg")),
   (simKey (str "gh") (str "dh"), diceVal (str "gh") (str "dh")),
   (simKey (str "gh") (str "di"), diceVal (str "gh") (str "di")),
   (simKey (str "gh") (str "ec"), diceVal (str "gh") (str "ec")),
   (simKey (str "gh") (str "ed"), diceVal (str "gh") (str "ed")),
   (simKey (str "gh") (str "ee"), diceVal (str "gh") (str "ee")),
   (simKey (str "gh") (str "ef"), diceVal (str "gh") (str "ef")),
   (simKey (str "gh") (str "eg"), diceVal (str "gh") (str "eg")),
   (simKey (str "gh") (str "eh"), diceVal (str "gh") (str "eh")),
   (simKey (str "gh") (str "ei"), diceVal (str "gh") (str "ei")),
   (simKey (str "gh") (str "fc"), diceVal (str "gh") (str "fc")),
   (simKey (str "gh") (str "fd"), diceVal (str "gh") (str "fd")),
   (simKey (str "gh") (str "fe"), diceVal (str "gh") (str "fe")),
   (simKey (str "gh") (str "ff"), diceVal (str "gh") (str "ff")),
   (simKey (str "gh") (str "fg"), diceVal (str "gh") (str "fg")),
   (simKey (str "gh") (str "fh"), diceVal (str "gh") (str "fh")),
   (simKey (str "gh") (str "fi"), diceVal (str "gh") (str "fi")),
   (simKey (str "gh") (str "gc"), diceVal (str "gh") (str "gc")),
   (simKey (str "gh") (str "gd"), diceVal (str "gh") (str "gd")),
   (simKey (str "gh") (str "ge"), diceVal (str "gh") (str "ge")),
   (simKey (str "gh") (str "gf"), diceVal (str "gh") (str "gf")),
   (simKey (str "gh") (str "gg"), diceVal (str "gh") (str "gg")),
   (simKey (str "gi") (str "zz"), diceVal (str "gi") (str "zz")),
   (simKey (str "gi") (str "abab:abab"), diceVal (str "gi") (str "abab:abab")),
   (simKey (str "gi") (str "cc"), diceVal (str "gi") (str "cc")),
   (simKey (str "gi") (str "cd"), diceVal (str "gi") (str "cd")),
   (simKey (str "gi") (str "ce"), diceVal (str "gi") (str "ce")),
   (simKey (str "gi") (str "cf"), diceVal (str "gi") (str "cf")),
   (simKey (str "gi") (str "cg"), diceVal (str "gi") (str "cg")),
   (simKey (str "gi") (str "ch"), diceVal (str "gi") (str "ch")),
   (simKey (str "gi") (str "ci"), diceVal (str "gi") (str "ci")),
   (simKey (str "gi") (str "dc"), diceVal (str "gi") (str "dc")),
   (simKey (str "gi") (str "dd"), diceVal (str "gi") (str "dd")),
   (simKey (str "gi") (str "de"), diceVal (str "gi") (str "de")),
   (simKey (str "gi") (str "df"), diceVal (str "gi") (str "df")),
   (simKey (str "gi") (str "dg"), diceVal (str "gi") (str "dg")),
   (simKey (str "gi") (str "dh"), diceVal (str "gi") (str "dh")),
   (simKey (str "gi") (str "di"), diceVal (str "gi") (str "di")),
   (simKey (str "gi") (str "ec"), diceVal (str "gi") (str "ec")),
   (simKey (str "gi") (str "ed"), diceVal (str "gi") (str "ed")),
   (simKey (str "gi") (str "ee"), diceVal (str "gi") (str "ee")),
   (simKey (str "gi") (str "ef"), diceVal (str "gi") (str "ef")),
   (simKey (str "gi") (str "eg"), diceVal (str "gi") (str "eg")),
   (simKey (str "gi") (str "eh"), diceVal (str "gi") (str "eh")),
   (simKey (str "gi") (str "ei"), diceVal (str "gi") (str "ei")),
   (simKey (str "gi") (str "fc"), diceVal (str "gi") (str "fc")),
   (simKey (str "gi") (str "fd"), diceVal (str "gi") (str "fd")),
   (simKey (str "gi") (str "fe"), diceVal (str "gi") (str "fe")),
   (simKey (str "gi") (str "ff"), diceVal (str "gi") (str "ff")),
   (simKey (str "gi") (str "fg"), diceVal (str "gi") (str "fg")),
   (simKey (str "gi") (str "fh"), diceVal (str "gi") (str "fh")),
   (simKey (str "gi") (str "fi"), diceVal (str "gi") (str "fi")),
   (simKey (str "gi") (str "gc"), diceVal (str "gi") (str "gc")),
   (simKey (str "gi") (str "gd"), diceVal (str "gi") (str "gd")),
   (simKey (str "gi") (str "ge"), diceVal (str "gi") (str "ge")),
   (simKey (str "gi") (str "gf"), diceVal (str "gi") (str "gf")),
   (simKey (str "gi") (str "gg"), diceVal (str "gi") (str "gg")),
   (simKey (str "gi") (str "gh"), diceVal (str "gi") (str "gh")),
   (simKey (str "hc") (str "zz"), diceVal (str "hc") (str "zz")),
   (simKey (str "hc") (str "abab:abab"), diceVal (str "hc") (str "abab:abab")),
   (simKey (str "hc") (str "cc"), diceVal (str "hc") (str "cc")),
   (simKey (str "hc") (str "cd"), diceVal (str "hc") (str "cd")),
   (simKey (str "hc") (str "ce"), diceVal (str "hc") (str "ce")),
   (simKey (str "hc") (str "cf"), diceVal (str "hc") (str "cf")),
   (simKey (str "hc") (str "cg"), diceVal (str "hc") (str "cg")),
   (simKey (str "hc") (str "ch"), diceVal (str "hc") (str "ch")),
   (simKey (str "hc") (str "ci"), diceVal (str "hc") (str "ci")),
   (simKey (str "hc") (str "dc"), diceVal (str "hc") (str "dc")),
   (simKey (str "hc") (str "dd"), diceVal (str "hc") (str "dd")),
   (simKey (str "hc") (str "de"), diceVal (str "hc") (str "de")),
   (simKey (str "hc") (str "df"), diceVal (str "hc") (str "df")),
   (simKey (str "hc") (str "dg"), diceVal (str "hc") (str "dg")),
   (simKey (str "hc") (str "dh"), diceVal (str "hc") (str "dh")),
   (simKey (str "hc") (str "di"), diceVal (str "hc") (str "di")),
   (simKey (str "hc") (str "ec"), diceVal (str "hc") (str "ec")),
   (simKey (str "hc") (str "ed"), diceVal (str "hc") (str "ed")),
   (simKey (str "hc") (str "ee"), diceVal (str "hc") (str "ee")),
   (simKey (str "hc") (str "ef"), diceVal (str "hc") (str "ef")),
   (simKey (str "hc") (str "eg"), diceVal (str "hc") (str "eg")),
   (simKey (str "hc") (str "eh"), diceVal (str "hc") (str "eh")),
   (simKey (str "hc") (str "ei"), diceVal (str "hc") (str "ei")),
   (simKey (str "hc") (str "fc"), diceVal (str "hc") (str "fc")),
   (simKey (str "hc") (str "fd"), diceVal (str "hc") (str "fd")),
   (simKey (str "hc") (str "fe"), diceVal (str "hc") (str "fe")),
   (simKey (str "hc") (str "ff"), diceVal (str "hc") (str "ff")),
   (simKey (str "hc") (str "fg"), diceVal (str "hc") (str "fg")),
   (simKey (str "hc") (str "fh"), diceVal (str "hc") (str "fh")),
   (simKey (str "hc") (str "fi"), diceVal (str "hc") (str "fi")),
   (simKey (str "hc") (str "gc"), diceVal (str "hc") (str "gc")),
   (simKey (str "hc") (str "gd"), diceVal (str "hc") (str "gd")),
   (simKey (str "hc") (str "ge"), diceVal (str "hc") (str "ge")),
   (simKey (str "hc") (str "gf"), diceVal (str "hc") (str "gf")),
   (simKey (str "hc") (str "gg"), diceVal (str "hc") (str "gg")),
   (simKey (str "hc") (str "gh"), diceVal (str "hc") (str "gh")),
   (simKey (str "hc") (str "gi"), diceVal (str "hc") (str "gi")),
   (simKey (str "hd") (str "zz"), diceVal (str "hd") (str "zz")),
   (simKey (str "hd") (str "abab:abab"), diceVal (str "hd") (str "abab:abab")),
   (simKey (str "hd") (str "cc"), diceVal (str "hd") (str "cc")),
   (simKey (str "hd") (str "cd"), diceVal (str "hd") (str "cd")),
   (simKey (str "hd") (str "ce"), diceVal (str "hd") (str "ce")),
   (simKey (str "hd") (str "cf"), diceVal (str "hd") (str "cf")),
   (simKey (str "hd") (str "cg"), diceVal (str "hd") (str "cg")),
   (simKey (str "hd") (str "ch"), diceVal (str "hd") (str "ch")),
   (simKey (str "hd") (str "ci"), diceVal (str "hd") (str "ci")),
   (simKey (str "hd") (str "dc"), diceVal (str "hd") (str "dc")),
   (simKey (str "hd") (str "dd"), diceVal (str "hd") (str "dd")),
   (simKey (str "hd") (str "de"), diceVal (str "hd") (str "de")),
   (simKey (str "hd") (str "df"), diceVal (str "hd") (str "df")),
   (simKey (str "hd") (str "dg"), diceVal (str "hd") (str "dg")),
   (simKey (str "hd") (str "dh"), diceVal (str "hd") (str "dh")),
   (simKey (str "hd") (str "di"), diceVal (str "hd") (str "di")),
   (simKey (str "hd") (str "ec"), diceVal (str "hd") (str "ec")),
   (simKey (str "hd") (str "ed"), diceVal (str "hd") (str "ed")),
   (simKey (str "hd") (str "ee"), diceVal (str "hd") (str "ee")),
   (simKey (str "hd") (str "ef"), diceVal (str "hd") (str "ef")),
   (simKey (str "hd") (str "eg"), diceVal (str "hd") (str "eg")),
   (simKey (str "hd") (str "eh"), diceVal (str "hd") (str "eh")),
   (simKey (str "hd") (str "ei"), diceVal (str "hd") (str "ei")),
   (simKey (str "hd") (str "fc"), diceVal (str "hd") (str "fc")),
   (simKey (str "hd") (str "fd"), diceVal (str "hd") (str "fd")),
   (simKey (str "hd") (str "fe"), diceVal (str "hd") (str "fe")),
   (simKey (str "hd") (str "ff"), diceVal (str "hd") (str "ff")),
   (simKey (str "hd") (str "fg"), diceVal (str "hd") (str "fg")),
   (simKey (str "hd") (str "fh"), diceVal (str "hd") (str "fh")),
   (simKey (str "hd") (str "fi"), diceVal (str "hd") (str "fi")),
   (simKey (str "hd") (str "gc"), diceVal (str "hd") (str "gc")),
   (simKey (str "hd") (str "gd"), diceVal (str "hd") (str "gd")),
   (simKey (str "hd") (str "ge"), diceVal (str "hd") (str "ge")),
   (simKey (str "hd") (str "gf"), diceVal (str "hd") (str "gf")),
   (simKey (str "hd") (str "gg"), diceVal (str "hd") (str "gg")),
   (simKey (str "hd") (str "gh"), diceVal (str "hd") (str "gh")),
   (simKey (str "hd") (str "gi"), diceVal (str "hd") (str "gi")),
   (simKey (str "hd") (str "hc"), diceVal (str "hd") (str "hc")),
   (simKey (str "he") (str "zz"), diceVal (str "he") (str "zz")),
   (simKey (str "he") (str "abab:abab"), diceVal (str "he") (str "abab:abab")),
   (simKey (str "he") (str "cc"), diceVal (str "he") (str "cc")),
   (simKey (str "he") (str "cd"), diceVal (str "he") (str "cd")),
   (simKey (str "he") (str "ce"), diceVal (str "he") (str "ce")),
   (simKey (str "he") (str "cf"), diceVal (str "he") (str "cf")),
   (simKey (str "he") (str "cg"), diceVal (str "he") (str "cg")),
   (simKey (str "he") (str "ch"), diceVal (str "he") (str "ch")),
   (simKey (str "he") (str "ci"), diceVal (str "he") (str "ci")),
   (simKey (str "he") (str "dc"), diceVal (str "he") (str "dc")),
   (simKey (str "he") (str "dd"), diceVal (str "he") (str "dd")),
   (simKey (str "he") (str "de"), diceVal (str "he") (str "de")),
   (simKey (str "he") (str "df"), diceVal (str "he") (str "df")),
   (simKey (str "he") (str "dg"), diceVal (str "he") (str "dg")),
   (simKey (str "he") (str "dh"), diceVal (str "he") (str "dh")),
   (simKey (str "he") (str "di"), diceVal (str "he") (str "di")),
   (simKey (str "he") (str "ec"), diceVal (str "he") (str "ec")),
   (simKey (str "he") (str "ed"), diceVal (str "he") (str "ed")),
   (simKey (str "he") (str "ee"), diceVal (str "he") (str "ee")),
   (simKey (str "he") (str "ef"), diceVal (str "he") (str "ef")),
   (simKey (str "he") (str "eg"), diceVal (str "he") (str "eg")),
   (simKey (str "he") (str "eh"), diceVal (str "he") (str "eh")),
   (simKey (str "he") (str "ei"), diceVal (str "he") (str "ei")),
   (simKey (str "he") (str "fc"), diceVal (str "he") (str "fc")),
   (simKey (str "he") (str "fd"), diceVal (str "he") (str "fd")),
   (simKey (str "he") (str "fe"), diceVal (str "he") (str "fe")),
   (simKey (str "he") (str "ff"), diceVal (str "he") (str "ff")),
   (simKey (str "he") (str "fg"), diceVal (str "he") (str "fg")),
   (simKey (str "he") (str "fh"), diceVal (str "he") (str "fh")),
   (simKey (str "he") (str "fi"), diceVal (str "he") (str "fi")),
   (simKey (str "he") (str "gc"), diceVal (str "he") (str "gc")),
   (simKey (str "he") (str "gd"), diceVal (str "he") (str "gd")),
   (simKey (str "he") (str "ge"), diceVal (str "he") (str "ge")),
   (simKey (str "he") (str "gf"), diceVal (str "he") (str "gf")),
   (simKey (str "he") (str "gg"), diceVal (str "he") (str "gg")),
   (simKey (str "he") (str "gh"), diceVal (str "he") (str "gh")),
   (simKey (str "he") (str "gi"), diceVal (str "he") (str "gi")),
   (simKey (str "he") (str "hc"), diceVal (str "he") (str "hc")),
   (simKey (str "he") (str "hd"), diceVal (str "he") (str "hd")),
   (simKey (str "hf") (str "zz"), diceVal (str "hf") (str "zz")),
   (simKey (str "hf") (str "abab:abab"), diceVal (str "hf") (str "abab:abab")),
   (simKey (str "hf") (str "cc"), diceVal (str "hf") (str "cc")),
   (simKey (str "hf") (str "cd"), diceVal (str "hf") (str "cd")),
   (simKey (str "hf") (str "ce"), diceVal (str "hf") (str "ce")),
   (simKey (str "hf") (str "cf"), diceVal (str "hf") (str "cf")),
   (simKey (str "hf") (str "cg"), diceVal (str "hf") (str "cg")),
   (simKey (str "hf") (str "ch"), diceVal (str "hf") (str "ch")),
   (simKey (str "hf") (str "ci"), diceVal (str "hf") (str "ci")),
   (simKey (str "hf") (str "dc"), diceVal (str "hf") (str "dc")),
   (simKey (str "hf") (str "dd"), diceVal (str "hf") (str "dd")),
   (simKey (str "hf") (str "de"), diceVal (str "hf") (str "de")),
   (simKey (str "hf") (str "df"), diceVal (str "hf") (str "df")),
   (simKey (str "hf") (str "dg"), diceVal (str "hf") (str "dg")),
   (simKey (str "hf") (str "dh"), diceVal (str "hf") (str "dh")),
   (simKey (str "hf") (str "di"), diceVal (str "hf") (str "di")),
   (simKey (str "hf") (str "ec"), diceVal (str "hf") (str "ec")),
   (simKey (str "hf") (str "ed"), diceVal (str "hf") (str "ed")),
   (simKey (str "hf") (str "ee"), diceVal (str "hf") (str "ee")),
   (simKey (str "hf") (str "ef"), diceVal (str "hf") (str "ef")),
   (simKey (str "hf") (str "eg"), diceVal (str "hf") (str "eg")),
   (simKey (str "hf") (str "eh"), diceVal (str "hf") (str "eh")),
   (simKey (str "hf") (str "ei"), diceVal (str "hf") (str "ei")),
   (simKey (str "hf") (str "fc"), diceVal (str "hf") (str "fc")),
   (simKey (str "hf") (str "fd"), diceVal (str "hf") (str "fd")),
   (simKey (str "hf") (str "fe"), diceVal (str "hf") (str "fe")),
   (simKey (str "hf") (str "ff"), diceVal (str "hf") (str "ff")),
   (simKey (str "hf") (str "fg"), diceVal (str "hf") (str "fg")),
   (simKey (str "hf") (str "fh"), diceVal (str "hf") (str "fh")),
   (simKey (str "hf") (str "fi"), diceVal (str "hf") (str "fi")),
   (simKey (str "hf") (str "gc"), diceVal (str "hf") (str "gc")),
   (simKey (str "hf") (str "gd"), diceVal (str "hf") (str "gd")),
   (simKey (str "hf") (str "ge"), diceVal (str "hf") (str "ge")),
   (simKey (str "hf") (str "gf"), diceVal (str "hf") (str "gf")),
   (simKey (str "hf") (str "gg"), diceVal (str "hf") (str "gg")),
   (simKey (str "hf") (str "gh"), diceVal (str "hf") (str "gh")),
   (simKey (str "hf") (str "gi"), diceVal (str "hf") (str "gi")),
   (simKey (str "hf") (str "hc"), diceVal (str "hf") (str "hc")),
   (simKey (str "hf") (str "hd"), diceVal (str "hf") (str "hd")),
   (simKey (str "hf") (str "he"), diceVal (str "hf") (str "he")),
   (simKey (str "hg") (str "zz"), diceVal (str "hg") (str "zz")),
   (simKey (str "hg") (str "abab:abab"), diceVal (str "hg") (str "abab:abab")),
   (simKey (str "hg") (str "cc"), diceVal (str "hg") (str "cc")),
   (simKey (str "hg") (str "cd"), diceVal (str "hg") (str "cd")),
   (simKey (str "hg") (str "ce"), diceVal (str "hg") (str "ce")),
   (simKey (str "hg") (str "cf"), diceVal (str "hg") (str "cf")),
   (simKey (str "hg") (str "cg"), diceVal (str "hg") (str "cg")),
   (simKey (str "hg") (str "ch"), diceVal (str "hg") (str "ch")),
   (simKey (str "hg") (str "ci"), diceVal (str "hg") (str "ci")),
   (simKey (str "hg") (str "dc"), diceVal (str "hg") (str "dc")),
   (simKey (str "hg") (str "dd"), diceVal (str "hg") (str "dd")),
   (simKey (str "hg") (str "de"), diceVal (str "hg") (str "de")),
   (simKey (str "hg") (str "df"), diceVal (str "hg") (str "df")),
   (simKey (str "hg") (str "dg"), diceVal (str "hg") (str "dg")),
   (simKey (str "hg") (str "dh"), diceVal (str "hg") (str "dh")),
   (simKey (str "hg") (str "di"), diceVal (str "hg") (str "di")),
   (simKey (str "hg") (str "ec"), diceVal (str "hg") (str "ec")),
   (simKey (str "hg") (str "ed"), diceVal (str "hg") (str "ed")),
   (simKey (str "hg") (str "ee"), diceVal (str "hg") (str "ee")),
   (simKey (str "hg") (str "ef"), diceVal (str "hg") (str "ef")),
   (simKey (str "hg") (str "eg"), diceVal (str "hg") (str "eg")),
   (simKey (str "hg") (str "eh"), diceVal (str "hg") (str "eh")),
   (simKey (str "hg") (str "ei"), diceVal (str "hg") (str "ei")),
   (simKey (str "hg") (str "fc"), diceVal (str "hg") (str "fc")),
   (simKey (str "hg") (str "fd"), diceVal (str "hg") (str "fd")),
   (simKey (str "hg") (str "fe"), diceVal (str "hg") (str "fe")),
   (simKey (str "hg") (str "ff"), diceVal (str "hg") (str "ff")),
   (simKey (str "hg") (str "fg"), diceVal (str "hg") (str "fg")),
   (simKey (str "hg") (str "fh"), diceVal (str "hg") (str "fh")),
   (simKey (str "hg") (str "fi"), diceVal (str "hg") (str "fi")),
   (simKey (str "hg") (str "gc"), diceVal (str "hg") (str "gc")),
   (simKey (str "hg") (str "gd"), diceVal (str "hg") (str "gd")),
   (simKey (str "hg") (str "ge"), diceVal (str "hg") (str "ge")),
   (simKey (str "hg") (str "gf"), diceVal (str "hg") (str "gf")),
   (simKey (str "hg") (str "gg"), diceVal (str "hg") (str "gg")),
   (simKey (str "hg") (str "gh"), diceVal (str "hg") (str "gh")),
   (simKey (str "hg") (str "gi"), diceVal (str "hg") (str "gi")),
   (simKey (str "hg") (str "hc"), diceVal (str "hg") (str "hc")),
   (simKey (str "hg") (str "hd"), diceVal (str "hg") (str "hd")),
   (simKey (str "hg") (str "he"), diceVal (str "hg") (str "he")),
   (simKey (str "hg") (str "hf"), diceVal (str "hg") (str "hf")),
   (simKey (str "hh") (str "zz"), diceVal (str "hh") (str "zz")),
   (simKey (str "hh") (str "abab:abab"), diceVal (str "hh") (str "abab:abab")),
   (simKey (str "hh") (str "cc"), diceVal (str "hh") (str "cc")),
   (simKey (str "hh") (str "cd"), diceVal (str "hh") (str "cd")),
   (simKey (str "hh") (str "ce"), diceVal (str "hh") (str "ce")),
   (simKey (str "hh") (str "cf"), diceVal (str "hh") (str "cf")),
   (simKey (str "hh") (str "cg"), diceVal (str "hh") (str "cg")),
   (simKey (str "hh") (str "ch"), diceVal (str "hh") (str "ch")),
   (simKey (str "hh") (str "ci"), diceVal (str "hh") (str "ci")),
   (simKey (str "hh") (str "dc"), diceVal (str "hh") (str "dc")),
   (simKey (str "hh") (str "dd"), diceVal (str "hh") (str "dd")),
   (simKey (str "hh") (str "de"), diceVal (str "hh") (str "de")),
   (simKey (str "hh") (str "df"), diceVal (str "hh") (str "df")),
   (simKey (str "hh") (str "dg"), diceVal (str "hh") (str "dg")),
   (simKey (str "hh") (str "dh"), diceVal (str "hh") (str "dh")),
   (simKey (str "hh") (str "di"), diceVal (str "hh") (str "di")),
   (simKey (str "hh") (str "ec"), diceVal (str "hh") (str "ec")),
   (simKey (str "hh") (str "ed"), diceVal (str "hh") (str "ed")),
   (simKey (str "hh") (str "ee"), diceVal (str "hh") (str "ee")),
   (simKey (str "hh") (str "ef"), diceVal (str "hh") (str "ef")),
   (simKey (str "hh") (str "eg"), diceVal (str "hh") (str "eg")),
   (simKey (str "hh") (str "eh"), diceVal (str "hh") (str "eh")),
   (simKey (str "hh") (str "ei"), diceVal (str "hh") (str "ei")),
   (simKey (str "hh") (str "fc"), diceVal (str "hh") (str "fc")),
   (simKey (str "hh") (str "fd"), diceVal (str "hh") (str "fd")),
   (simKey (str "hh") (str "fe"), diceVal (str "hh") (str "fe")),
   (simKey (str "hh") (str "ff"), diceVal (str "hh") (str "ff")),
   (simKey (str "hh") (str "fg"), diceVal (str "hh") (str "fg")),
   (simKey (str "hh") (str "fh"), diceVal (str "hh") (str "fh")),
   (simKey (str "hh") (str "fi"), diceVal (str "hh") (str "fi")),
   (simKey (str "hh") (str "gc"), diceVal (str "hh") (str "gc")),
   (simKey (str "hh") (str "gd"), diceVal (str "hh") (str "gd")),
   (simKey (str "hh") (str "ge"), diceVal (str "hh") (str "ge")),
   (simKey (str "hh") (str "gf"), diceVal (str "hh") (str "gf")),
   (simKey (str "hh") (str "gg"), diceVal (str "hh") (str "gg")),
   (simKey (str "hh") (str "gh"), diceVal (str "hh") (str "gh")),
   (simKey (str "hh") (str "gi"), diceVal (str "hh") (str "gi")),
   (simKey (str "hh") (str "hc"), diceVal (str "hh") (str "hc")),
   (simKey (str "hh") (str "hd"), diceVal (str "hh") (str "hd")),
   (simKey (str "hh") (str "he"), diceVal (str "hh") (str "he")),
   (simKey (str "hh") (str "hf"), diceVal (str "hh") (str "hf")),
   (simKey (str "hh") (str "hg"), diceVal (str "hh") (str "hg")),
   (simKey (str "hi") (str "zz"), diceVal (str "hi") (str "zz")),
   (simKey (str "hi") (str "abab:abab"), diceVal (str "hi") (str "abab:abab")),
   (simKey (str "hi") (str "cc"), diceVal (str "hi") (str "cc")),
   (simKey (str "hi") (str "cd"), diceVal (str "hi") (str "cd")),
   (simKey (str "hi") (str "ce"), diceVal (str "hi") (str "ce")),
   (simKey (str "hi") (str "cf"), diceVal (str "hi") (str "cf")),
   (simKey (str "hi") (str "cg"), diceVal (str "hi") (str "cg")),
   (simKey (str "hi") (str "ch"), diceVal (str "hi") (str "ch")),
   (simKey (str "hi") (str "ci"), diceVal (str "hi") (str "ci")),
   (simKey (str "hi") (str "dc"), diceVal (str "hi") (str "dc")),
   (simKey (str "hi") (str "dd"), diceVal (str "hi") (str "dd")),
   (simKey (str "hi") (str "de"), diceVal (str "hi") (str "de")),
   (simKey (str "hi") (str "df"), diceVal (str "hi") (str "df")),
   (simKey (str "hi") (str "dg"), diceVal (str "hi") (str "dg")),
   (simKey (str "hi") (str "dh"), diceVal (str "hi") (str "dh")),
   (simKey (str "hi") (str "di"), diceVal (str "hi") (str "di")),
   (simKey (str "hi") (str "ec"), diceVal (str "hi") (str "ec")),
   (simKey (str "hi") (str "ed"), diceVal (str "hi") (str "ed")),
   (simKey (str "hi") (str "ee"), diceVal (str "hi") (str "ee")),
   (simKey (str "hi") (str "ef"), diceVal (str "hi") (str "ef")),
   (simKey (str "hi") (str "eg"), diceVal (str "hi") (str "eg")),
   (simKey (str "hi") (str "eh"), diceVal (str "hi") (str "eh")),
   (simKey (str "hi") (str "ei"), diceVal (str "hi") (str "ei")),
   (simKey (str "hi") (str "fc"), diceVal (str "hi") (str "fc")),
   (simKey (str "hi") (str "fd"), diceVal (str "hi") (str "fd")),
   (simKey (str "hi") (str "fe"), diceVal (str "hi") (str "fe")),
   (simKey (str "hi") (str "ff"), diceVal (str "hi") (str "ff")),
   (simKey (str "hi") (str "fg"), diceVal (str "hi") (str "fg")),
   (simKey (str "hi") (str "fh"), diceVal (str "hi") (str "fh")),
   (simKey (str "hi") (str "fi"), diceVal (str "hi") (str "fi")),
   (simKey (str "hi") (str "gc"), diceVal (str "hi") (str "gc")),
   (simKey (str "hi") (str "gd"), diceVal (str "hi") (str "gd")),
   (simKey (str "hi") (str "ge"), diceVal (str "hi") (str "ge")),
   (simKey (str "hi") (str "gf"), diceVal (str "hi") (str "gf")),
   (simKey (str "hi") (str "gg"), diceVal (str "hi") (str "gg")),
   (simKey (str "hi") (str "gh"), diceVal (str "hi") (str "gh")),
   (simKey (str "hi") (str "gi"), diceVal (str "hi") (str "gi")),
   (simKey (str "hi") (str "hc"), diceVal (str "hi") (str "hc")),
   (simKey (str "hi") (str "hd"), diceVal (str "hi") (str "hd")),
   (simKey (str "hi") (str "he"), diceVal (str "hi") (str "he")),
   (simKey (str "hi") (str "hf"), diceVal (str "hi") (str "hf")),
   (simKey (str "hi") (str "hg"), diceVal (str "hi") (str "hg")),
   (simKey (str "hi") (str "hh"), diceVal (str "hi") (str "hh")),
   (simKey (str "ic") (str "zz"), diceVal (str "ic") (str "zz")),
   (simKey (str "ic") (str "abab:abab"), diceVal (str "ic") (str "abab:abab")),
   (simKey (str "ic") (str "cc"), diceVal (str "ic") (str "cc")),
   (simKey (str "ic") (str "cd"), diceVal (str "ic") (str "cd")),
   (simKey (str "ic") (str "ce"), diceVal (str "ic") (str "ce")),
   (simKey (str "ic") (str "cf"), diceVal (str "ic") (str "cf")),
   (simKey (str "ic") (str "cg"), diceVal (str "ic") (str "cg")),
   (simKey (str "ic") (str "ch"), diceVal (str "ic") (str "ch")),
   (simKey (str "ic") (str "ci"), diceVal (str "ic") (str "ci")),
   (simKey (str "ic") (str "dc"), diceVal (str "ic") (str "dc")),
   (simKey (str "ic") (str "dd"), diceVal (str "ic") (str "dd")),
   (simKey (str "ic") (str "de"), diceVal (str "ic") (str "de")),
   (simKey (str "ic") (str "df"), diceVal (str "ic") (str "df")),
   (simKey (str "ic") (str "dg"), diceVal (str "ic") (str "dg")),
   (simKey (str "ic") (str "dh"), diceVal (str "ic") (str "dh")),
   (simKey (str "ic") (str "di"), diceVal (str "ic") (str "di")),
   (simKey (str "ic") (str "ec"), diceVal (str "ic") (str "ec")),
   (simKey (str "ic") (str "ed"), diceVal (str "ic") (str "ed")),
   (simKey (str "ic") (str "ee"), diceVal (str "ic") (str "ee")),
   (simKey (str "ic") (str "ef"), diceVal (str "ic") (str "ef")),
   (simKey (str "ic") (str "eg"), diceVal (str "ic") (str "eg")),
   (simKey (str "ic") (str "eh"), diceVal (str "ic") (str "eh")),
   (simKey (str "ic") (str "ei"), diceVal (str "ic") (str "ei")),
   (simKey (str "ic") (str "fc"), diceVal (str "ic") (str "fc")),
   (simKey (str "ic") (str "fd"), diceVal (str "ic") (str "fd")),
   (simKey (str "ic") (str "fe"), diceVal (str "ic") (str "fe")),
   (simKey (str "ic") (str "ff"), diceVal (str "ic") (str "ff")),
   (simKey (str "ic") (str "fg"), diceVal (str "ic") (str "fg")),
   (simKey (str "ic") (str "fh"), diceVal (str "ic") (str "fh")),
   (simKey (str "ic") (str "fi"), diceVal (str "ic") (str "fi")),
   (simKey (str "ic") (str "gc"), diceVal (str "ic") (str "gc")),
   (simKey (str "ic") (str "gd"), diceVal (str "ic") (str "gd")),
   (simKey (str "ic") (str "ge"), diceVal (str "ic") (str "ge")),
   (simKey (str "ic") (str "gf"), diceVal (str "ic") (str "gf")),
   (simKey (str "ic") (str "gg"), diceVal (str "ic") (str "gg")),
   (simKey (str "ic") (str "gh"), diceVal (str "ic") (str "gh")),
   (simKey (str "ic") (str "gi"), diceVal (str "ic") (str "gi")),
   (simKey (str "ic") (str "hc"), diceVal (str "ic") (str "hc")),
   (simKey (str "ic") (str "hd"), diceVal (str "ic") (str "hd")),
   (simKey (str "ic") (str "he"), diceVal (str "ic") (str "he")),
   (simKey (str "ic") (str "hf"), diceVal (str "ic") (str "hf")),
   (simKey (str "ic") (str "hg"), diceVal (str "ic") (str "hg")),
   (simKey (str "ic") (str "hh"), diceVal (str "ic") (str "hh")),
   (simKey (str "ic") (str "hi"), diceVal (str "ic") (str "hi"))]

/-- The probe call: `"abab"` survives dedup only because its check against
`"abab:zz"` hits the colliding key (stored value `0/9`, true similarity
`6/9 > 0.6`); the five trailing fillers then push the cache past 1000
entries, evicting that oldest key. -/
def c7ProbeList : List JVal :=
  [some (str "abab:zz"), some (str "abab"), some (str "jk"), some (str "lm"),
   some (str "no"), some (str "pq"), some (str "rs")]

/-- First probe run on the filled engine state. -/
def c7Run1 : List Str × SimCache := removeDuplicateInfoC c7Cache c7ProbeList

/-! ## Basic facts about the chunking -/

theorem chunks10F_congr : ∀ (f1 f2 : Nat) (l : List α), l.length ≤ f1 → l.length ≤ f2 →
    chunks10F f1 l = chunks10F f2 l
  | f1, f2, [], _, _ => by cases f1 <;> cases f2 <;> rfl
  | 0, _, x :: xs, h1, _ => by simp at h1
  | _ + 1, 0, x :: xs, _, h2 => by simp at h2
  | n + 1, m + 1, x :: xs, h1, h2 => by
    show (x :: xs.take 9) :: chunks10F n (xs.drop 9) =
      (x :: xs.take 9) :: chunks10F m (xs.drop 9)
    have hd : (xs.drop 9).length ≤ xs.length := by
      simp only [List.length_drop]; omega
    simp only [List.length_cons] at h1 h2
    rw [chunks10F_congr n m (xs.drop 9) (by omega) (by omega)]

theorem chunks10_cons (x : α) (xs : List α) :
    chunks10 (x :: xs) = (x :: xs.take 9) :: chunks10 (xs.drop 9) := by
  show (x :: xs.take 9) :: chunks10F xs.length (xs.drop 9) = _
  rw [chunks10F_congr xs.length (xs.drop 9).length (xs.drop 9)
    (by simp only [List.length_drop]; omega) le_rfl]
  rfl

theorem chunks10_flatten : ∀ (l : List α), (chunks10 l).flatten = l
  | [] => rfl
  | x :: xs => by
    rw [chunks10_cons, List.flatten_cons, chunks10_flatten (xs.drop 9)]
    simp [List.take_append_drop]
termination_by l => l.length
decreasing_by
  simp only [List.length_drop, List.length_cons]
  omega

theorem chunks10_map (f : α → β) : ∀ (l : List α),
    chunks10 (l.map f) = (chunks10 l).map (List.map f)
  | [] => rfl
  | x :: xs => by
    rw [List.map_cons, chunks10_cons, chunks10_cons, List.map_cons,
      ← List.map_take, ← List.map_drop, chunks10_map f (xs.drop 9)]
    rfl
termination_by l => l.length
decreasing_by
  simp only [List.length_drop, List.length_cons]
  omega

/-! ## Invariants of the cache-free deduplicator -/

theorem chunkKeep_spec : ∀ (c : List JVal) (acc : List Str) (pre : List JVal),
    (∀ s ∈ chunkKeep acc pre c,
      s ≠ [] ∧ (∀ t ∈ acc, simB s t = false) ∧ (∀ o ∈ pre, simJB s o = false)) ∧
    (chunkKeep acc pre c).Pairwise dissim
  | [], acc, pre => by simp [chunkKeep]
  | none :: rest, acc, pre => by
    have ih := chunkKeep_spec rest acc (pre ++ [none])
    have heq : chunkKeep acc pre (none :: rest) = chunkKeep acc (pre ++ [none]) rest := rfl
    rw [heq]
    refine ⟨?_, ih.2⟩
    intro u hu
    exact ⟨(ih.1 u hu).1, (ih.1 u hu).2.1,
      fun o ho => (ih.1 u hu).2.2 o (List.mem_append_left _ ho)⟩
  | some s :: rest, acc, pre => by
    by_cases hs : s.isEmpty
    · have ih := chunkKeep_spec rest acc (pre ++ [some s])
      have heq : chunkKeep acc pre (some s :: rest) =
          chunkKeep acc (pre ++ [some s]) rest := by
        simp [chunkKeep, hs]
      rw [heq]
      refine ⟨?_, ih.2⟩
      intro u hu
      exact ⟨(ih.1 u hu).1, (ih.1 u hu).2.1,
        fun o ho => (ih.1 u hu).2.2 o (List.mem_append_left _ ho)⟩
    · by_cases hany : ((acc.map some ++ pre).any (fun o => simJB s o)) = true
      · have ih := chunkKeep_spec rest acc (pre ++ [some s])
        have heq : chunkKeep acc pre (some s :: rest) =
            chunkKeep acc (pre ++ [some s]) rest := by
          simp [chunkKeep, hs, hany]
        rw [heq]
        refine ⟨?_, ih.2⟩
        intro u hu
        exact ⟨(ih.1 u hu).1, (ih.1 u hu).2.1,
          fun o ho => (ih.1 u hu).2.2 o (List.mem_append_left _ ho)⟩
      · have ih := chunkKeep_spec rest acc (pre ++ [some s])
        have heq : chunkKeep acc pre (some s :: rest) =
            s :: chunkKeep acc (pre ++ [some s]) rest := by
          simp [chunkKeep, hs, hany]
        have hanyf : (acc.map some ++ pre).any (fun o => simJB s o) = false := by
          simpa using hany
        have hall : ∀ o ∈ acc.map some ++ pre, simJB s o = false := by
          intro o ho
          have h' := List.any_eq_false.mp hanyf o ho
          simpa using h'
        rw [heq]
        constructor
        · intro u hu
          rcases List.mem_cons.mp hu with rfl | hu'
          · refine ⟨?_, ?_, ?_⟩
            · intro hnil; rw [hnil] at hs; simp at hs
            · intro t ht
              exact hall (some t) (List.mem_append_left _ (List.mem_map.mpr ⟨t, ht, rfl⟩))
            · intro o ho; exact hall o (List.mem_append_right _ ho)
          · exact ⟨(ih.1 u hu').1, (ih.1 u hu').2.1,
              fun o ho => (ih.1 u hu').2.2 o (List.mem_append_left _ ho)⟩
        · refine List.Pairwise.cons ?_ ih.2
          intro u hu
          have h2 := (ih.1 u hu).2.2 (some s) (List.mem_append_right _ (by simp))
          simpa [dissim, simJB] using h2

theorem removeDuplicateInfo_eq_foldl (xs : List JVal) :
    removeDuplicateInfo xs = (chunks10 xs).foldl dedupStep [] := rfl

theorem dedupFold_good : ∀ (cs : List (List JVal)) (acc : List Str),
    accGood acc → accGood (cs.foldl dedupStep acc)
  | [], acc, h => h
  | c :: cs, acc, h => by
    refine dedupFold_good cs (dedupStep acc c) ?_
    have hc := chunkKeep_spec c acc []
    constructor
    · rw [dedupStep, List.pairwise_append]
      refine ⟨h.1, hc.2, ?_⟩
      intro a ha b hb
      exact (hc.1 b hb).2.1 a ha
    · intro u hu
      rcases List.mem_append.mp hu with hu' | hu'
      · exact h.2 u hu'
      · exact (hc.1 u hu').1

theorem removeDuplicateInfo_good (xs : List JVal) : accGood (removeDuplicateInfo xs) := by
  rw [removeDuplicateInfo_eq_foldl]
  exact dedupFold_good _ [] ⟨List.Pairwise.nil, by simp⟩

theorem chunkKeep_all : ∀ (c : List Str) (acc : List Str) (pre : List JVal),
    (∀ s ∈ c, s ≠ [] ∧ (∀ t ∈ acc, simB s t = false) ∧ (∀ o ∈ pre, simJB s o = false)) →
    c.Pairwise dissim →
    chunkKeep acc pre (c.map some) = c
  | [], _, _, _, _ => rfl
  | s :: c, acc, pre, hall, hpw => by
    have hs := hall s (by simp)
    have hsne : ¬ s.isEmpty := by
      cases s with
      | nil => exact absurd rfl hs.1
      | cons a t => simp
    have hanyf : (acc.map some ++ pre).any (fun o => simJB s o) = false := by
      rw [List.any_eq_false]
      intro o ho
      rcases List.mem_append.mp ho with ho' | ho'
      · rcases List.mem_map.mp ho' with ⟨t, ht, rfl⟩
        simpa [simJB] using hs.2.1 t ht
      · simp [hs.2.2 o ho']
    have heq : chunkKeep acc pre (some s :: c.map some) =
        s :: chunkKeep acc (pre ++ [some s]) (c.map some) := by
      simp [chunkKeep, hsne, hanyf]
    rw [List.map_cons, heq,
      chunkKeep_all c acc (pre ++ [some s]) ?_ (List.Pairwise.sublist (by simp) hpw)]
    intro u hu
    have h := hall u (List.mem_cons_of_mem _ hu)
    refine ⟨h.1, h.2.1, ?_⟩
    intro o ho
    rcases List.mem_append.mp ho with ho' | ho'
    · exact h.2.2 o ho'
    · have : o = some s := by simpa using ho'
      subst this
      have hd := (List.pairwise_cons.mp hpw).1 u hu
      simpa [simJB] using hd

theorem dedupFold_all : ∀ (cs : List (List Str)) (acc : List Str),
    (∀ s ∈ cs.flatten, s ≠ []) →
    (acc ++ cs.flatten).Pairwise dissim →
    (cs.map (List.map some)).foldl dedupStep acc = acc ++ cs.flatten
  | [], acc, _, _ => by simp
  | c :: cs, acc, hne, hpw => by
    have hpw' : (acc ++ (c ++ cs.flatten)).Pairwise dissim := by
      simpa using hpw
    have hsplit := List.pairwise_append.mp hpw'
    have hsplit2 := List.pairwise_append.mp hsplit.2.1
    have hkeep : chunkKeep acc [] (c.map some) = c := by
      refine chunkKeep_all c acc [] ?_ hsplit2.1
      intro s hsc
      refine ⟨hne s (by simp [hsc]), ?_, by simp⟩
      intro t ht
      have := hsplit.2.2 t ht s (List.mem_append_left _ hsc)
      simpa [dissim] using this
    have step : dedupStep acc (c.map some) = acc ++ c := by
      rw [dedupStep, hkeep]
    rw [List.map_cons, List.foldl_cons, step,
      dedupFold_all cs (acc ++ c) ?_ ?_]
    · simp
    · intro s hs; exact hne s (by simp [hs])
    · rw [List.append_assoc]
      exact hpw'

/-- Re-running the deduplicator on an output list that is pairwise dissimilar
and free of empty strings keeps everything. -/
theorem removeDuplicateInfo_fixed (ys : List Str)
    (h1 : ∀ s ∈ ys, s ≠ []) (h2 : ys.Pairwise dissim) :
    removeDuplicateInfo (ys.map some) = ys := by
  rw [removeDuplicateInfo_eq_foldl, chunks10_map]
  have := dedupFold_all (chunks10 ys) []
    (by rw [chunks10_flatten]; exact h1)
    (by rw [List.nil_append, chunks10_flatten]; exact h2)
  simpa [chunks10_flatten] using this

theorem chunkKeep_sublist : ∀ (c : List JVal) (acc : List Str) (pre : List JVal),
    ((chunkKeep acc pre c).map some).Sublist c
  | [], _, _ => by simp [chunkKeep]
  | none :: rest, acc, pre =>
    List.Sublist.cons _ (chunkKeep_sublist rest acc (pre ++ [none]))
  | some s :: rest, acc, pre => by
    by_cases hs : s.isEmpty
    · have heq : chunkKeep acc pre (some s :: rest) =
          chunkKeep acc (pre ++ [some s]) rest := by simp [chunkKeep, hs]
      rw [heq]
      exact List.Sublist.cons _ (chunkKeep_sublist rest acc (pre ++ [some s]))
    · by_cases hany : ((acc.map some ++ pre).any (fun o => simJB s o)) = true
      · have heq : chunkKeep acc pre (some s :: rest) =
            chunkKeep acc (pre ++ [some s]) rest := by simp [chunkKeep, hs, hany]
        rw [heq]
        exact List.Sublist.cons _ (chunkKeep_sublist rest acc (pre ++ [some s]))
      · have heq : chunkKeep acc pre (some s :: rest) =
            s :: chunkKeep acc (pre ++ [some s]) rest := by simp [chunkKeep, hs, hany]
        rw [heq, List.map_cons]
        exact List.Sublist.cons₂ _ (chunkKeep_sublist rest acc (pre ++ [some s]))

theorem dedupFold_sublist : ∀ (cs : List (List JVal)) (acc : List Str),
    ∃ t : List Str, cs.foldl dedupStep acc = acc ++ t ∧ (t.map some).Sublist cs.flatten
  | [], acc => ⟨[], by simp⟩
  | c :: cs, acc => by
    obtain ⟨t, ht1, ht2⟩ := dedupFold_sublist cs (dedupStep acc c)
    refine ⟨chunkKeep acc [] c ++ t, ?_, ?_⟩
    · rw [List.foldl_cons, ht1, dedupStep, List.append_assoc]
    · rw [List.map_append, List.flatten_cons]
      exact List.Sublist.append (chunkKeep_sublist c acc []) ht2

/-! ## Symmetry of the Dice coefficient -/

theorem inter_cons_right {α : Type _} [DecidableEq α] (s t : Multiset α) (y : α) :
    s ∩ (y ::ₘ t) = if y ∈ s then y ::ₘ (s.erase y ∩ t) else s ∩ t := by
  by_cases hy : y ∈ s
  · simp only [hy, if_true]
    ext x
    by_cases hx : x = y
    · subst hx
      have h1 : 1 ≤ s.count x := Multiset.one_le_count_iff_mem.mpr hy
      rw [Multiset.count_inter, Multiset.count_cons_self, Multiset.count_cons_self,
        Multiset.count_inter, Multiset.count_erase_self]
      omega
    · rw [Multiset.count_inter, Multiset.count_cons_of_ne hx,
        Multiset.count_cons_of_ne hx, Multiset.count_inter,
        Multiset.count_erase_of_ne hx]
  · simp only [hy, if_false]
    ext x
    by_cases hx : x = y
    · subst hx
      have h0 : s.count x = 0 := Multiset.count_eq_zero.mpr hy
      rw [Multiset.count_inter, Multiset.count_cons_self, Multiset.count_inter]
      omega
    · rw [Multiset.count_inter, Multiset.count_cons_of_ne hx, Multiset.count_inter]

theorem coe_removeFirst (y : Char × Char) :
    ∀ f : List (Char × Char),
      ((removeFirst y f : List (Char × Char)) : Multiset (Char × Char)) =
        ((f : List (Char × Char)) : Multiset (Char × Char)).erase y
  | [] => by simp [removeFirst]
  | x :: xs => by
    by_cases h : x = y
    · subst h
      rw [removeFirst,
        show ((x :: xs : List (Char × Char)) : Multiset (Char × Char)) =
          x ::ₘ (xs : Multiset (Char × Char)) from rfl, Multiset.erase_cons_head]
      simp
    · rw [removeFirst]
      simp only [h, if_false]
      rw [show ((x :: removeFirst y xs : List (Char × Char)) : Multiset (Char × Char)) =
        x ::ₘ ((removeFirst y xs : List (Char × Char)) : Multiset (Char × Char)) from rfl,
        coe_removeFirst y xs,
        show ((x :: xs : List (Char × Char)) : Multiset (Char × Char)) =
        x ::ₘ (xs : Multiset (Char × Char)) from rfl,
        Multiset.erase_cons_tail _ h]

theorem interLoop_eq_card_inter (g : List (Char × Char)) :
    ∀ (f : List (Char × Char)),
      interLoop f g = Multiset.card ((f : Multiset (Char × Char)) ∩ (g : Multiset (Char × Char))) := by
  induction g with
  | nil => intro f; simp [interLoop]
  | cons y g ih =>
    intro f
    have hcoe : ((y :: g : List (Char × Char)) : Multiset (Char × Char)) =
        y ::ₘ (g : Multiset (Char × Char)) := rfl
    rw [hcoe, inter_cons_right]
    by_cases hy : y ∈ f
    · have hym : y ∈ (f : Multiset (Char × Char)) := by simpa using hy
      simp only [interLoop, hy, if_true, hym]
      rw [ih (removeFirst y f), coe_removeFirst, Multiset.card_cons]
    · have hym : y ∉ (f : Multiset (Char × Char)) := by simpa using hy
      simp only [interLoop, hy, if_false, hym]
      exact ih f

theorem interLoop_comm (f g : List (Char × Char)) : interLoop f g = interLoop g f := by
  rw [interLoop_eq_card_inter, interLoop_eq_card_inter, Multiset.inter_comm]

/-- `compareTwoStrings` is symmetric. -/
theorem diceVal_comm (a b : Str) : diceVal a b = diceVal b a := by
  unfold diceVal
  by_cases h : stripWS a = stripWS b
  · simp [h]
  · have h' : ¬ stripWS b = stripWS a := fun hh => h hh.symm
    simp only [h, h', if_false]
    by_cases hl : (stripWS a).length < 2 ∨ (stripWS b).length < 2
    · have hl' : (stripWS b).length < 2 ∨ (stripWS a).length < 2 := hl.symm
      simp [hl, hl']
    · have hl' : ¬ ((stripWS b).length < 2 ∨ (stripWS a).length < 2) :=
        fun hh => hl hh.symm
      simp only [hl, hl', if_false]
      rw [interLoop_comm, Nat.add_comm]

/-- The executed dissimilarity relation is symmetric as a statement about the
metric: `compareTwoStrings(b, a) ≤ 0.6` iff `compareTwoStrings(a, b) ≤ 0.6`. -/
theorem simB_comm (a b : Str) : simB a b = simB b a := by
  rw [simB, simB, diceVal_comm]

/-! ## Equivalence of the implementation with the block-aware pass -/

theorem dedupPass_block : ∀ (c rest : List JVal) (acc bk : List Str) (bpre : List JVal),
    bpre.length + c.length ≤ 10 →
    dedupPassAux acc bk bpre bpre.length (c ++ rest) =
      chunkKeep acc bpre c ++
        dedupPassAux acc (bk ++ chunkKeep acc bpre c) (bpre ++ c)
          (bpre.length + c.length) rest
  | [], rest, acc, bk, bpre, _ => by simp [chunkKeep]
  | v :: c', rest, acc, bk, bpre, hlen => by
    have h10 : bpre.length ≠ 10 := by
      simp only [List.length_cons] at hlen
      omega
    have hlen' : (bpre ++ [v]).length + c'.length ≤ 10 := by
      simp only [List.length_append, List.length_singleton, List.length_cons,
        List.length_nil] at hlen ⊢
      omega
    have hlcons : (bpre ++ [v]).length = bpre.length + 1 := by simp
    match v with
    | none =>
      have lhs : dedupPassAux acc bk bpre bpre.length ((none :: c') ++ rest) =
          dedupPassAux acc bk (bpre ++ [none]) (bpre.length + 1) (c' ++ rest) := by
        simp [dedupPassAux, h10]
      rw [lhs, ← hlcons, dedupPass_block c' rest acc bk (bpre ++ [none]) hlen']
      have hck : chunkKeep acc bpre (none :: c') = chunkKeep acc (bpre ++ [none]) c' := rfl
      rw [hck]
      have : (bpre ++ [none]) ++ c' = bpre ++ (none :: c') := by simp
      rw [this, hlcons]
      have : bpre.length + 1 + c'.length = bpre.length + (none :: c').length := by
        simp only [List.length_cons]; omega
      rw [this]
    | some s =>
      by_cases hs : s.isEmpty
      · have lhs : dedupPassAux acc bk bpre bpre.length ((some s :: c') ++ rest) =
            dedupPassAux acc bk (bpre ++ [some s]) (bpre.length + 1) (c' ++ rest) := by
          simp [dedupPassAux, h10, hs]
        rw [lhs, ← hlcons, dedupPass_block c' rest acc bk (bpre ++ [some s]) hlen']
        have hck : chunkKeep acc bpre (some s :: c') = chunkKeep acc (bpre ++ [some s]) c' := by
          simp [chunkKeep, hs]
        rw [hck]
        have h1 : (bpre ++ [some s]) ++ c' = bpre ++ (some s :: c') := by simp
        rw [h1, hlcons]
        have h2 : bpre.length + 1 + c'.length = bpre.length + (some s :: c').length := by
          simp only [List.length_cons]; omega
        rw [h2]
      · by_cases hany : ((acc.map some ++ bpre).any (fun o => simJB s o)) = true
        · have lhs : dedupPassAux acc bk bpre bpre.length ((some s :: c') ++ rest) =
              dedupPassAux acc bk (bpre ++ [some s]) (bpre.length + 1) (c' ++ rest) := by
            simp [dedupPassAux, h10, hs, hany]
          rw [lhs, ← hlcons, dedupPass_block c' rest acc bk (bpre ++ [some s]) hlen']
          have hck : chunkKeep acc bpre (some s :: c') =
              chunkKeep acc (bpre ++ [some s]) c' := by
            simp [chunkKeep, hs, hany]
          rw [hck]
          have h1 : (bpre ++ [some s]) ++ c' = bpre ++ (some s :: c') := by simp
          rw [h1, hlcons]
          have h2 : bpre.length + 1 + c'.length = bpre.length + (some s :: c').length := by
            simp only [List.length_cons]; omega
          rw [h2]
        · have lhs : dedupPassAux acc bk bpre bpre.length ((some s :: c') ++ rest) =
              s :: dedupPassAux acc (bk ++ [s]) (bpre ++ [some s]) (bpre.length + 1)
                (c' ++ rest) := by
            simp [dedupPassAux, h10, hs, hany]
          rw [lhs, ← hlcons, dedupPass_block c' rest acc (bk ++ [s]) (bpre ++ [some s]) hlen']
          have hck : chunkKeep acc bpre (some s :: c') =
              s :: chunkKeep acc (bpre ++ [some s]) c' := by
            simp [chunkKeep, hs, hany]
          rw [hck]
          have h1 : (bpre ++ [some s]) ++ c' = bpre ++ (some s :: c') := by simp
          have h2 : (bk ++ [s]) ++ chunkKeep acc (bpre ++ [some s]) c' =
              bk ++ (s :: chunkKeep acc (bpre ++ [some s]) c') := by simp
          rw [h1, h2, hlcons]
          have h3 : bpre.length + 1 + c'.length = bpre.length + (some s :: c').length := by
            simp only [List.length_cons]; omega
          rw [h3]
          rfl

theorem dedupPass_reset (acc bk : List Str) (bpre : List JVal) (xs : List JVal) :
    dedupPassAux acc bk bpre 10 xs = dedupPassAux (acc ++ bk) [] [] 0 xs := by
  cases xs with
  | nil => rfl
  | cons v rest =>
    simp [dedupPassAux]

theorem dedupPass_eq_fold : ∀ (xs : List JVal) (acc : List Str),
    (chunks10 xs).foldl dedupStep acc = acc ++ dedupPassAux acc [] [] 0 xs
  | [], acc => by
    show (chunks10 ([] : List JVal)).foldl dedupStep acc = acc ++ []
    simp [chunks10, chunks10F]
  | x :: xs, acc => by
    rw [chunks10_cons, List.foldl_cons]
    have hsplit : x :: xs = (x :: xs.take 9) ++ xs.drop 9 := by
      simp [List.take_append_drop]
    have hblock := dedupPass_block (x :: xs.take 9) (xs.drop 9) acc [] []
      (by simp only [List.length_nil, List.length_cons, List.length_take]; omega)
    by_cases hrest : xs.drop 9 = []
    · rw [hrest] at hblock
      have hnil : ∀ kp bk bp cn, dedupPassAux kp bk bp cn [] = [] := fun _ _ _ _ => rfl
      rw [hrest] at hsplit
      conv_rhs => rw [hsplit]
      have h0 : ([] : List JVal).length = 0 := rfl
      rw [← h0, hblock, hnil, List.append_nil]
      rw [hrest, show chunks10 ([] : List JVal) = [] from rfl, List.foldl_nil, dedupStep]
    · have hlen9 : 9 ≤ xs.length := by
        by_contra hcon
        exact hrest (List.drop_eq_nil_of_le (by omega))
      have hc10 : ([] : List JVal).length + (x :: xs.take 9).length = 10 := by
        simp only [List.length_nil, List.length_cons, List.length_take]
        omega
      conv_rhs => rw [hsplit]
      have h0 : ([] : List JVal).length = 0 := rfl
      rw [← h0, hblock, hc10, dedupPass_reset,
        show dedupStep acc (x :: xs.take 9) = acc ++ chunkKeep acc [] (x :: xs.take 9)
          from rfl,
        dedupPass_eq_fold (xs.drop 9) (acc ++ chunkKeep acc [] (x :: xs.take 9))]
      simp
termination_by xs => xs.length
decreasing_by
  simp only [List.length_drop, List.length_cons]
  omega

/-! ## The similarity cache is transparent on colon-free strings -/

theorem colonFree_iff (s : Str) : colonFree s = true ↔ ':' ∉ s := by
  simp [colonFree]

theorem simKey_inj : ∀ (a a' b b' : Str), colonFree a = true → colonFree a' = true →
    simKey a b = simKey a' b' → a = a' ∧ b = b'
  | [], [], b, b', _, _, h => ⟨rfl, by simpa [simKey] using h⟩
  | [], c' :: a', b, b', _, ha', h => by
    simp only [simKey, List.nil_append, List.cons_append, List.cons.injEq] at h
    have : ':' ∈ c' :: a' := by simp [← h.1]
    exact absurd this ((colonFree_iff _).mp ha')
  | c :: a, [], b, b', ha, _, h => by
    simp only [simKey, List.nil_append, List.cons_append, List.cons.injEq] at h
    have : ':' ∈ c :: a := by simp [h.1]
    exact absurd this ((colonFree_iff _).mp ha)
  | c :: a, c' :: a', b, b', ha, ha', h => by
    simp only [simKey, List.cons_append, List.cons.injEq] at h
    have ha2 : colonFree a = true := by
      rw [colonFree_iff] at ha ⊢
      exact fun hm => ha (List.mem_cons_of_mem _ hm)
    have ha2' : colonFree a' = true := by
      rw [colonFree_iff] at ha' ⊢
      exact fun hm => ha' (List.mem_cons_of_mem _ hm)
    have := simKey_inj a a' b b' ha2 ha2' h.2
    exact ⟨by rw [h.1, this.1], this.2⟩

theorem mem_mapSet [DecidableEq K] {c : List (K × V)} {k : K} {v : V} {p : K × V}
    (hp : p ∈ mapSet c k v) : p ∈ c ∨ p = (k, v) := by
  unfold mapSet at hp
  by_cases hmem : k ∈ c.map (fun p => p.1)
  · rw [if_pos hmem] at hp
    rcases List.mem_map.mp hp with ⟨q, hq, hqe⟩
    by_cases hqk : q.1 = k
    · right; rw [← hqe]; simp [hqk]
    · left; rw [← hqe]; simpa [hqk] using hq
  · rw [if_neg hmem] at hp
    rcases List.mem_append.mp hp with h | h
    · exact Or.inl h
    · right; simpa using h

theorem mem_cacheInsert [DecidableEq K] {c : List (K × V)} {k : K} {v : V} {p : K × V}
    (hp : p ∈ cacheInsert c k v) : p ∈ c ∨ p = (k, v) := by
  unfold cacheInsert at hp
  by_cases hlen : (mapSet c k v).length > 1000
  · rw [if_pos hlen] at hp
    match hm : mapSet c k v with
    | [] => rw [hm] at hp; cases hp
    | q :: t =>
      rw [hm] at hp
      exact mem_mapSet (hm ▸ List.mem_cons_of_mem q hp)
  · rw [if_neg hlen] at hp
    exact mem_mapSet hp

theorem lookupC_mem [DecidableEq K] {c : List (K × V)} {k : K} {v : V}
    (h : lookupC c k = some v) : (k, v) ∈ c := by
  unfold lookupC at h
  rcases Option.map_eq_some'.mp h with ⟨p, hp, hv⟩
  have hmem := List.mem_of_find?_eq_some hp
  have hkey := List.find?_some hp
  have : p.1 = k := by simpa using hkey
  rw [← hv, ← this]
  exact hmem

theorem scCoherent_of_insert {sc : SimCache} (h : scCoherent sc) (s t : Str)
    (hs : colonFree s = true) (ht : colonFree t = true) :
    scCoherent (cacheInsert sc (simKey s t) (diceVal s t)) := by
  intro p hp a b ha hb hk
  rcases mem_cacheInsert hp with hp' | hp'
  · exact h p hp' a b ha hb hk
  · subst hp'
    simp only at hk
    obtain ⟨rfl, rfl⟩ := simKey_inj s a t b hs ha hk
    rfl

theorem simCheckC_spec {sc : SimCache} (h : scCoherent sc) (s : Str) (o : JVal)
    (hs : colonFree s = true) (ho : ∀ t, o = some t → colonFree t = true) :
    (simCheckC sc s o).1 = simJB s o ∧ scCoherent (simCheckC sc s o).2 := by
  match o with
  | none => exact ⟨rfl, h⟩
  | some t =>
    have ht := ho t rfl
    simp only [simCheckC, simJB]
    match hl : lookupC sc (simKey s t) with
    | some v =>
      have hv : v = diceVal s t := h _ (lookupC_mem hl) s t hs ht rfl
      exact ⟨by rw [hv]; rfl, h⟩
    | none =>
      exact ⟨rfl, scCoherent_of_insert h s t hs ht⟩

theorem jsSomeC_spec {sc : SimCache} (h : scCoherent sc) (s : Str)
    (hs : colonFree s = true) :
    ∀ (prev : List JVal), (∀ o ∈ prev, ∀ t, o = some t → colonFree t = true) →
      (jsSomeC sc s prev).1 = prev.any (fun o => simJB s o) ∧
      scCoherent (jsSomeC sc s prev).2
  | [], _ => ⟨rfl, h⟩
  | o :: rest, hprev => by
    have hcheck := simCheckC_spec h s o hs (hprev o (by simp))
    simp only [jsSomeC, List.any_cons]
    by_cases hb : (simCheckC sc s o).1 = true
    · rw [if_pos hb]
      refine ⟨?_, hb ▸ hcheck.2⟩
      rw [← hcheck.1, hb]
      rfl
    · rw [if_neg hb]
      have hrest := @jsSomeC_spec (simCheckC sc s o).2 hcheck.2 s hs rest
        (fun o' ho' t ht => hprev o' (List.mem_cons_of_mem _ ho') t ht)
      refine ⟨?_, hrest.2⟩
      rw [hrest.1, ← hcheck.1]
      have : (simCheckC sc s o).1 = false := by simpa using hb
      rw [this]
      rfl

theorem chunkKeepC_spec : ∀ (c : List JVal) (sc : SimCache) (acc : List Str) (pre : List JVal),
    scCoherent sc →
    (∀ s ∈ acc, colonFree s = true) →
    (∀ o ∈ pre, ∀ t, o = some t → colonFree t = true) →
    (∀ o ∈ c, ∀ t, o = some t → colonFree t = true) →
    (chunkKeepC sc acc pre c).1 = chunkKeep acc pre c ∧
      scCoherent (chunkKeepC sc acc pre c).2
  | [], sc, acc, pre, hsc, _, _, _ => ⟨rfl, hsc⟩
  | none :: rest, sc, acc, pre, hsc, hacc, hpre, hc => by
    have hpre' : ∀ o ∈ pre ++ [(none : JVal)], ∀ t, o = some t → colonFree t = true := by
      intro o ho t ht
      rcases List.mem_append.mp ho with h | h
      · exact hpre o h t ht
      · simp at h; subst h; cases ht
    exact chunkKeepC_spec rest sc acc (pre ++ [none]) hsc hacc hpre'
      (fun o ho t ht => hc o (List.mem_cons_of_mem _ ho) t ht)
  | some s :: rest, sc, acc, pre, hsc, hacc, hpre, hc => by
    have hsf : colonFree s = true := hc (some s) (by simp) s rfl
    have hpre' : ∀ o ∈ pre ++ [some s], ∀ t, o = some t → colonFree t = true := by
      intro o ho t ht
      rcases List.mem_append.mp ho with h | h
      · exact hpre o h t ht
      · simp at h; subst h; cases ht; exact hsf
    have hc' : ∀ o ∈ rest, ∀ t, o = some t → colonFree t = true :=
      fun o ho t ht => hc o (List.mem_cons_of_mem _ ho) t ht
    by_cases hs : s.isEmpty
    · have heqC : chunkKeepC sc acc pre (some s :: rest) =
          chunkKeepC sc acc (pre ++ [some s]) rest := by
        simp [chunkKeepC, hs]
      have heqP : chunkKeep acc pre (some s :: rest) =
          chunkKeep acc (pre ++ [some s]) rest := by
        simp [chunkKeep, hs]
      rw [heqC, heqP]
      exact chunkKeepC_spec rest sc acc (pre ++ [some s]) hsc hacc hpre' hc'
    · have hmix : ∀ o ∈ acc.map some ++ pre, ∀ t, o = some t → colonFree t = true := by
        intro o ho t ht
        rcases List.mem_append.mp ho with h | h
        · rw [ht] at h
          rcases List.mem_map.mp h with ⟨u, hu, hue⟩
          have hut : u = t := by injection hue
          subst hut
          exact hacc u hu
        · exact hpre o h t ht
      have hsome := jsSomeC_spec hsc s hsf (acc.map some ++ pre) hmix
      by_cases hb : (jsSomeC sc s (acc.map some ++ pre)).1 = true
      · have hanyT : ((acc.map some ++ pre).any (fun o => simJB s o)) = true := by
          rw [← hsome.1]; exact hb
        have heqC : chunkKeepC sc acc pre (some s :: rest) =
            chunkKeepC (jsSomeC sc s (acc.map some ++ pre)).2 acc (pre ++ [some s]) rest := by
          simp [chunkKeepC, hs, hb]
        have heqP : chunkKeep acc pre (some s :: rest) =
            chunkKeep acc (pre ++ [some s]) rest := by
          simp [chunkKeep, hs, hanyT]
        rw [heqC, heqP]
        exact chunkKeepC_spec rest _ acc (pre ++ [some s]) hsome.2 hacc hpre' hc'
      · have hanyF : ((acc.map some ++ pre).any (fun o => simJB s o)) = false := by
          rw [← hsome.1]; simpa using hb
        have hbf : (jsSomeC sc s (acc.map some ++ pre)).1 = false := by simpa using hb
        have ihc := chunkKeepC_spec rest (jsSomeC sc s (acc.map some ++ pre)).2 acc
          (pre ++ [some s]) hsome.2 hacc hpre' hc'
        have heqC : chunkKeepC sc acc pre (some s :: rest) =
            (s :: (chunkKeepC (jsSomeC sc s (acc.map some ++ pre)).2 acc
              (pre ++ [some s]) rest).1,
             (chunkKeepC (jsSomeC sc s (acc.map some ++ pre)).2 acc
              (pre ++ [some s]) rest).2) := by
          simp [chunkKeepC, hs, hbf]
        have heqP : chunkKeep acc pre (some s :: rest) =
            s :: chunkKeep acc (pre ++ [some s]) rest := by
          simp [chunkKeep, hs, hanyF]
        rw [heqC, heqP]
        exact ⟨by rw [ihc.1], ihc.2⟩

theorem dedupFoldC_spec : ∀ (cs : List (List JVal)) (sc : SimCache) (acc : List Str),
    scCoherent sc → (∀ s ∈ acc, colonFree s = true) →
    (∀ c ∈ cs, ∀ o ∈ c, ∀ t, o = some t → colonFree t = true) →
    (cs.foldl (fun st chunk =>
        let r := chunkKeepC st.2 st.1 [] chunk
        (st.1 ++ r.1, r.2)) (acc, sc)).1 = cs.foldl dedupStep acc ∧
      scCoherent (cs.foldl (fun st chunk =>
        let r := chunkKeepC st.2 st.1 [] chunk
        (st.1 ++ r.1, r.2)) (acc, sc)).2
  | [], sc, acc, hsc, _, _ => ⟨rfl, hsc⟩
  | c :: cs, sc, acc, hsc, hacc, hcs => by
    have hck := chunkKeepC_spec c sc acc [] hsc hacc (by simp)
      (fun o ho t ht => hcs c (by simp) o ho t ht)
    have hacc' : ∀ s ∈ acc ++ chunkKeep acc [] c, colonFree s = true := by
      intro u hu
      rcases List.mem_append.mp hu with h | h
      · exact hacc u h
      · have hsub := chunkKeep_sublist c acc []
        have : some u ∈ c := hsub.mem (List.mem_map.mpr ⟨u, h, rfl⟩)
        exact hcs c (by simp) (some u) this u rfl
    have ih := dedupFoldC_spec cs (chunkKeepC sc acc [] c).2 (acc ++ chunkKeep acc [] c)
      hck.2 hacc' (fun c' hc' => hcs c' (List.mem_cons_of_mem _ hc'))
    have hstep : (List.foldl (fun (st : List Str × SimCache) chunk =>
        let r := chunkKeepC st.2 st.1 [] chunk
        (st.1 ++ r.1, r.2)) (acc, sc) (c :: cs)) =
        (List.foldl (fun (st : List Str × SimCache) chunk =>
          let r := chunkKeepC st.2 st.1 [] chunk
          (st.1 ++ r.1, r.2))
          (acc ++ (chunkKeepC sc acc [] c).1, (chunkKeepC sc acc [] c).2) cs) := rfl
    have hstepP : List.foldl dedupStep acc (c :: cs) =
        List.foldl dedupStep (acc ++ chunkKeep acc [] c) cs := rfl
    rw [hstep, hstepP, hck.1]
    exact ih

/-- With a coherent cache and colon-free sentences, the cached deduplicator
computes exactly the fresh one, and coherence is preserved. -/
theorem removeDuplicateInfoC_spec (sc : SimCache) (xs : List JVal)
    (hsc : scCoherent sc)
    (hxs : ∀ o ∈ xs, ∀ t, o = some t → colonFree t = true) :
    (removeDuplicateInfoC sc xs).1 = removeDuplicateInfo xs ∧
      scCoherent (removeDuplicateInfoC sc xs).2 := by
  have hcs : ∀ c ∈ chunks10 xs, ∀ o ∈ c, ∀ t, o = some t → colonFree t = true := by
    intro c hcmem o ho t ht
    refine hxs o ?_ t ht
    rw [← chunks10_flatten xs]
    exact List.mem_flatten.mpr ⟨c, hcmem, ho⟩
  have := dedupFoldC_spec (chunks10 xs) sc [] hsc (by simp) hcs
  exact ⟨this.1, this.2⟩

/-! ## The phrase cache is transparent for short texts -/

theorem extractKPP_spec (pc : PhraseCache) (t : Str) (hpc : pcCoherent pc)
    (ht : t.length ≤ 100) :
    (extractKPP pc t).1 = extractPhrases t ∧ pcCoherent (extractKPP pc t).2 := by
  by_cases he : t.isEmpty
  · have htnil : t = [] := by simpa using he
    subst htnil
    exact ⟨rfl, hpc⟩
  · have hkey : t.take 100 = t := List.take_of_length_le ht
    simp only [extractKPP, he, Bool.false_eq_true, if_false, hkey]
    match hl : lookupC pc t with
    | some phrases =>
      have hp := hpc _ (lookupC_mem hl)
      have hp2 : phrases = extractPhrases t := hp.2
      exact ⟨by rw [hp2], hpc⟩
    | none =>
      refine ⟨rfl, ?_⟩
      intro p hp
      rcases mem_cacheInsert hp with hp' | hp'
      · exact hpc p hp'
      · subst hp'
        exact ⟨ht, rfl⟩

/-! ## FIFO capacity of both caches -/

theorem mapSet_length [DecidableEq K] (c : List (K × V)) (k : K) (v : V) :
    (mapSet c k v).length = if k ∈ c.map (fun p => p.1)
      then c.length else c.length + 1 := by
  unfold mapSet
  by_cases h : k ∈ c.map (fun p => p.1)
  · rw [if_pos h, if_pos h, List.length_map]
  · rw [if_neg h, if_neg h, List.length_append, List.length_singleton]

theorem processArticles_le (themes : List Str) (fails : Nat → Bool) :
    ∀ (arts : List JSArticle) (i : Nat) (pc : PhraseCache) (sc : SimCache),
      (processArticles themes fails arts i pc sc).1.length ≤ arts.length
  | [], _, _, _ => by simp [processArticles]
  | a :: rest, i, pc, sc => by
    have ih := processArticles_le themes fails rest (i + 1)
      (processArticle themes pc sc (fails i) a).2.1
      (processArticle themes pc sc (fails i) a).2.2
    simp only [processArticles, List.length_append, List.length_cons]
    have : (processArticle themes pc sc (fails i) a).1.toList.length ≤ 1 := by
      cases (processArticle themes pc sc (fails i) a).1 <;> simp
    omega

/-! ## Theme membership is determined by flattened occurrence counts -/

theorem bumpCount_stores (m : List (Str × Nat)) (p : Str) (f : Str → Nat)
    (hm : ∀ q ∈ m, q.2 = f q.1) (hf0 : ∀ φ, φ ∉ m.map (fun q => q.1) → f φ = 0) :
    ∀ q ∈ bumpCount m p, q.2 = if q.1 = p then f q.1 + 1 else f q.1 := by
  intro q hq
  unfold bumpCount at hq
  by_cases hc : ((m.map (fun q => q.1)).contains p) = true
  · rw [if_pos hc] at hq
    rcases List.mem_map.mp hq with ⟨q₀, hq₀, hqe⟩
    by_cases hqp : q₀.1 = p
    · rw [if_pos hqp] at hqe
      rw [← hqe]
      have hv : q₀.2 = f q₀.1 := hm q₀ hq₀
      simp [hqp, hv]
    · rw [if_neg hqp] at hqe
      rw [← hqe, if_neg hqp]
      exact hm q₀ hq₀
  · rw [if_neg hc] at hq
    rcases List.mem_append.mp hq with h | h
    · have hq1 : q.1 ≠ p := by
        intro hqp
        exact hc (List.contains_iff_exists_mem_beq.mpr
          ⟨q.1, List.mem_map.mpr ⟨q, h, rfl⟩, by simp [hqp]⟩)
      rw [if_neg hq1]
      exact hm q h
    · have hq' : q = (p, 1) := by simpa using h
      subst hq'
      have hfp : f p = 0 := hf0 p (by
        intro hmem
        exact hc (List.contains_iff_exists_mem_beq.mpr ⟨p, hmem, by simp⟩))
      simp [hfp]

theorem bumpCount_keys (m : List (Str × Nat)) (p : Str) :
    ∀ φ, (φ ∈ m.map (fun q => q.1) ∨ φ = p) →
      φ ∈ (bumpCount m p).map (fun q => q.1) := by
  intro φ hφ
  unfold bumpCount
  by_cases hc : ((m.map (fun q => q.1)).contains p) = true
  · rw [if_pos hc]
    have hkeys : (m.map (fun q => if q.1 = p then (q.1, q.2 + 1) else q)).map
        (fun q => q.1) = m.map (fun q => q.1) := by
      rw [List.map_map]
      refine List.map_congr_left ?_
      intro q _
      by_cases hqp : q.1 = p
      · simp [hqp]
      · simp [hqp]
    rw [hkeys]
    rcases hφ with h | rfl
    · exact h
    · exact List.contains_iff_exists_mem_beq.mp hc |>.elim
        (fun ψ hψ => by
          rcases hψ with ⟨hψm, hψb⟩
          have : φ = ψ := by simpa using hψb
          rw [this]; exact hψm)
  · rw [if_neg hc, List.map_append]
    rcases hφ with h | rfl
    · exact List.mem_append_left _ h
    · exact List.mem_append_right _ (by simp)

theorem countFold_stores : ∀ (l : List Str) (m : List (Str × Nat)) (f : Str → Nat),
    (∀ q ∈ m, q.2 = f q.1) → (∀ φ, φ ∉ m.map (fun q => q.1) → f φ = 0) →
    ∀ q ∈ l.foldl bumpCount m, q.2 = f q.1 + l.count q.1
  | [], m, f, hm, _ => by
    intro q hq
    simp only [List.foldl_nil] at hq
    simp [hm q hq]
  | p :: l, m, f, hm, hf0 => by
    intro q hq
    simp only [List.foldl_cons] at hq
    have hm' := bumpCount_stores m p f hm hf0
    have hf0' : ∀ φ, φ ∉ (bumpCount m p).map (fun q => q.1) →
        (fun ψ => if ψ = p then f ψ + 1 else f ψ) φ = 0 := by
      intro φ hφ
      have hφp : φ ≠ p := by
        intro h
        exact hφ (bumpCount_keys m p φ (Or.inr h))
      have hφm : φ ∉ m.map (fun q => q.1) := by
        intro h
        exact hφ (bumpCount_keys m p φ (Or.inl h))
      simp only [hφp, if_neg]
      · exact hf0 φ hφm
    have hthis : q.2 = (if q.1 = p then f q.1 + 1 else f q.1) + List.count q.1 l :=
      countFold_stores l (bumpCount m p)
        (fun ψ => if ψ = p then f ψ + 1 else f ψ) hm' hf0' q hq
    rw [hthis]
    by_cases hqp : q.1 = p
    · rw [if_pos hqp, hqp, List.count_cons_self]
      omega
    · rw [if_neg hqp, List.count_cons_of_ne (by simpa using hqp)]

theorem countFold_keys : ∀ (l : List Str) (m : List (Str × Nat)) (φ : Str),
    (φ ∈ l ∨ φ ∈ m.map (fun q => q.1)) →
    φ ∈ (l.foldl bumpCount m).map (fun q => q.1)
  | [], m, φ, h => by
    rcases h with h | h
    · cases h
    · simpa using h
  | p :: l, m, φ, h => by
    simp only [List.foldl_cons]
    refine countFold_keys l (bumpCount m p) φ ?_
    rcases h with h | h
    · rcases List.mem_cons.mp h with rfl | h'
      · exact Or.inr (bumpCount_keys m φ φ (Or.inr rfl))
      · exact Or.inl h'
    · exact Or.inr (bumpCount_keys m p φ (Or.inl h))

theorem mem_insertByCount (p q : Str × Nat) :
    ∀ (l : List (Str × Nat)), q ∈ insertByCount p l ↔ q = p ∨ q ∈ l
  | [] => by simp [insertByCount]
  | r :: l => by
    unfold insertByCount
    by_cases h : r.2 ≤ p.2
    · simp [h]
    · rw [if_neg h]
      simp only [List.mem_cons, mem_insertByCount p q l]
      tauto

theorem mem_sortByCountDesc (q : Str × Nat) :
    ∀ (l : List (Str × Nat)), q ∈ sortByCountDesc l ↔ q ∈ l
  | [] => by simp [sortByCountDesc]
  | p :: l => by
    unfold sortByCountDesc
    rw [List.foldr_cons, mem_insertByCount]
    simp only [List.mem_cons]
    rw [show List.foldr insertByCount [] l = sortByCountDesc l from rfl,
      mem_sortByCountDesc q l]

/-- A phrase is ranked among the themes iff it occurs at least twice in the
flattened phrase stream. -/
theorem mem_themes_iff (allPhrases : List Str) (φ : Str) :
    φ ∈ (sortByCountDesc ((buildCounts allPhrases).filter
        (fun q => 1 < q.2))).map (fun q => q.1) ↔
      2 ≤ allPhrases.count φ := by
  constructor
  · intro h
    rcases List.mem_map.mp h with ⟨q, hq, rfl⟩
    have hq' := (mem_sortByCountDesc q _).mp hq
    have hmem := List.mem_of_mem_filter hq'
    have hcnt := List.of_mem_filter hq'
    have := countFold_stores allPhrases [] (fun _ => 0) (by simp) (fun _ _ => rfl) q hmem
    simp only [Nat.zero_add] at this
    rw [this] at hcnt
    simpa using hcnt
  · intro h
    have hmem : φ ∈ allPhrases := by
      rw [← List.count_pos_iff]
      omega
    have hk := countFold_keys allPhrases [] φ (Or.inl hmem)
    rcases List.mem_map.mp hk with ⟨q, hq, hq1⟩
    have hv := countFold_stores allPhrases [] (fun _ => 0) (by simp) (fun _ _ => rfl) q hq
    simp only [Nat.zero_add] at hv
    refine List.mem_map.mpr ⟨q, ?_, hq1⟩
    rw [mem_sortByCountDesc]
    refine List.mem_filter.mpr ⟨hq, ?_⟩
    simp only [hv, hq1, decide_eq_true_eq]
    omega

theorem themesFold_spec : ∀ (articles : List JSArticle) (pc : PhraseCache)
    (init : List (List Str)),
    pcCoherent pc → (∀ a ∈ articles, (combinedText a).length ≤ 100) →
    (articles.foldl (fun st a =>
        let r := extractKPP st.2 (combinedText a)
        (st.1 ++ [r.1], r.2)) (init, pc)).1 =
      init ++ articles.map (fun a => extractPhrases (combinedText a)) ∧
    pcCoherent (articles.foldl (fun st a =>
        let r := extractKPP st.2 (combinedText a)
        (st.1 ++ [r.1], r.2)) (init, pc)).2
  | [], pc, init, hpc, _ => ⟨by simp, hpc⟩
  | a :: articles, pc, init, hpc, hlen => by
    have hkpp := extractKPP_spec pc (combinedText a) hpc (hlen a (by simp))
    have hstep : (List.foldl (fun (st : List (List Str) × PhraseCache) a =>
        let r := extractKPP st.2 (combinedText a)
        (st.1 ++ [r.1], r.2)) (init, pc) (a :: articles)) =
        (List.foldl (fun (st : List (List Str) × PhraseCache) a =>
          let r := extractKPP st.2 (combinedText a)
          (st.1 ++ [r.1], r.2))
          (init ++ [(extractKPP pc (combinedText a)).1],
           (extractKPP pc (combinedText a)).2) articles) := rfl
    have ih := themesFold_spec articles (extractKPP pc (combinedText a)).2
      (init ++ [(extractKPP pc (combinedText a)).1]) hkpp.2
      (fun a' ha' => hlen a' (List.mem_cons_of_mem _ ha'))
    rw [hstep]
    refine ⟨?_, ih.2⟩
    rw [ih.1, hkpp.1]
    simp

/-- `findCommonThemes` under a coherent phrase cache on texts short enough to
be fully keyed: the returned themes are exactly the phrases occurring at least
twice in the flattened stream of fresh per-article extractions, and coherence
is preserved. -/
theorem findCommonThemes_spec (pc : PhraseCache) (articles : List JSArticle)
    (hpc : pcCoherent pc) (hlen : ∀ a ∈ articles, (combinedText a).length ≤ 100) :
    (∀ φ, φ ∈ (findCommonThemes pc articles).1 ↔
      2 ≤ ((articles.map (fun a => extractPhrases (combinedText a))).flatten).count φ) ∧
    pcCoherent (findCommonThemes pc articles).2 := by
  by_cases hnil : articles.isEmpty
  · have : articles = [] := by simpa using hnil
    subst this
    constructor
    · intro φ
      simp [findCommonThemes]
    · simpa [findCommonThemes] using hpc
  · have hfold := themesFold_spec articles pc [] hpc hlen
    simp only [findCommonThemes, hnil, Bool.false_eq_true, if_false]
    constructor
    · intro φ
      rw [show (articles.foldl (fun st a =>
          let r := extractKPP st.2 (combinedText a)
          (st.1 ++ [r.1], r.2)) (([] : List (List Str)), pc)).1 =
          articles.map (fun a => extractPhrases (combinedText a)) by
        simpa using hfold.1]
      exact mem_themes_iff _ φ
    · exact hfold.2

/-! ## Claim theorems -/

/-- C1 (counterexample): on a non-sequence input, `summarize` does *not* let
the `SummarizationError` propagate — the concrete call returns the fallback
record with an `error` message (`this.fallbackSummary` spread plus
`error: 'Invalid articles input'`), contradicting the claim that the failure
propagates to the caller rather than a fallback object being returned. -/
theorem C1_counterexample :
    (summarize (fun _ => false) [] [] none).1 =
      { fallbackSummary with error := some (str "Invalid articles input") } := rfl

/-- C1 (amended): for every non-sequence input, `summarize` raises
`SummarizationError('Invalid articles input')` internally (visible in the
`try` body `summarizeCore`), but its own catch-all handler intercepts it and
returns the fallback record carrying the error message, with both caches
untouched; nothing propagates to the caller. -/
theorem C1_amended (fails : Nat → Bool) (pc : PhraseCache) (sc : SimCache) :
    summarizeCore fails pc sc none = .error (str "Invalid articles input") ∧
    summarize fails pc sc none =
      ({ fallbackSummary with error := some (str "Invalid articles input") }, pc, sc) :=
  ⟨rfl, rfl⟩

/-- C3 (counterexample): on `["xy", "xyz", "yz"]` the implementation drops
`"yz"` because it is compared against the *dropped* same-chunk entry `"xyz"`,
while the spec's single continuous pass (which compares only against kept
sentences) keeps it — so batching does change which sentences are kept. -/
theorem C3_counterexample : removeDuplicateInfo cexChunkList ≠ dedupSpec cexChunkList := by
  decide

/-- C3 (amended): `removeDuplicateInfo` equals a single left-to-right pass in
which each sentence is compared against every kept sentence of earlier blocks
of 10 *plus every earlier entry of its own block, kept or dropped* — not the
kept-only continuous pass the claim states. -/
theorem C3_amended (xs : List JVal) : removeDuplicateInfo xs = dedupChunkSpec xs := by
  rw [removeDuplicateInfo_eq_foldl, dedupPass_eq_fold xs [], List.nil_append]
  rfl

/-- The cache-elided dedup algorithm is idempotent: re-running it on its own
output (fed back as string entries) returns the output unchanged.  (The
function as implemented threads the similarity cache, whose key collisions
plus FIFO eviction can break this; see the C7 theorems.) -/
theorem removeDuplicateInfo_idem (xs : List JVal) :
    removeDuplicateInfo ((removeDuplicateInfo xs).map some) = removeDuplicateInfo xs :=
  removeDuplicateInfo_fixed _ (removeDuplicateInfo_good xs).2
    (removeDuplicateInfo_good xs).1

/-- The dedup output is a subsequence of the input, for any similarity
decisions whatsoever. -/
theorem removeDuplicateInfo_sublist (xs : List JVal) :
    ((removeDuplicateInfo xs).map some).Sublist xs := by
  obtain ⟨t, ht1, ht2⟩ := dedupFold_sublist (chunks10 xs) []
  rw [removeDuplicateInfo_eq_foldl, ht1, List.nil_append]
  rw [chunks10_flatten] at ht2
  exact ht2

/-- C8: the output of `removeDuplicateInfo` is a subsequence of the input —
kept sentences appear in their original relative order. -/
theorem C8_order_preserved (xs : List JVal) :
    ((removeDuplicateInfo xs).map some).Sublist xs :=
  removeDuplicateInfo_sublist xs

set_option maxRecDepth 20000 in
set_option maxHeartbeats 8000000 in
/-- C7 (counterexample): `removeDuplicateInfo` is *not* idempotent on the
engine state reached after the `c7FillList` call.  In the first probe run
`"abab"` is kept only because its check against `"abab:zz"` hits the
colliding cache key `"abab:abab:zz"` (stored value `0/9` for the pair
`("abab:abab", "zz")`, while the true similarity of `("abab", "abab:zz")` is
`6/9 > 0.6`); the probe's own cache misses then push the map past 1000
entries and FIFO-evict that key, so the second run recomputes the similarity
and drops `"abab"` — the output changes. -/
theorem C7_counterexample :
    c7Run1.1 = [str "abab:zz", str "abab", str "jk", str "lm", str "no",
      str "pq", str "rs"] ∧
    (removeDuplicateInfoC c7Run1.2 (c7Run1.1.map some)).1 =
      [str "abab:zz", str "jk", str "lm", str "no", str "pq", str "rs"] ∧
    (removeDuplicateInfoC c7Run1.2 (c7Run1.1.map some)).1 ≠ c7Run1.1 := by
  have h1 : c7Run1.1 = [str "abab:zz", str "abab", str "jk", str "lm",
      str "no", str "pq", str "rs"] := by decide
  have h2 : (removeDuplicateInfoC c7Run1.2 (c7Run1.1.map some)).1 =
      [str "abab:zz", str "jk", str "lm", str "no", str "pq", str "rs"] := by decide
  refine ⟨h1, h2, ?_⟩
  rw [h2, h1]
  decide

/-- C7 (amended): re-running the deduplicator on its own output returns the
output unchanged whenever the similarity cache cannot interfere — i.e. for
colon-free sentences under a coherent cache, where every lookup returns the
genuine similarity of its pair; the unconditional claim fails because a
colliding key can keep a near-duplicate in run one and be FIFO-evicted
before run two. -/
theorem C7_amended (sc : SimCache) (xs : List JVal) (hsc : scCoherent sc)
    (hxs : ∀ o ∈ xs, ∀ t, o = some t → colonFree t = true) :
    (removeDuplicateInfoC (removeDuplicateInfoC sc xs).2
      ((removeDuplicateInfoC sc xs).1.map some)).1 =
      (removeDuplicateInfoC sc xs).1 := by
  have h1 := removeDuplicateInfoC_spec sc xs hsc hxs
  have hout : ∀ o ∈ (removeDuplicateInfoC sc xs).1.map some, ∀ t, o = some t →
      colonFree t = true := by
    intro o ho t ht
    subst ht
    rcases List.mem_map.mp ho with ⟨u, hu, hue⟩
    have hut : u = t := by injection hue
    subst hut
    rw [h1.1] at hu
    have hmem : some u ∈ xs := (removeDuplicateInfo_sublist xs).mem
      (List.mem_map.mpr ⟨u, hu, rfl⟩)
    exact hxs (some u) hmem u rfl
  have h2 := removeDuplicateInfoC_spec (removeDuplicateInfoC sc xs).2
    ((removeDuplicateInfoC sc xs).1.map some) h1.2 hout
  rw [h2.1, h1.1, removeDuplicateInfo_idem]

/-- Witness for C7 (amended) at the empty cache and two colon-free
sentences. -/
theorem C7_amended_witness :
    scCoherent [] ∧
    (∀ o ∈ [some (str "ef"), some (str "gh")], ∀ t, o = some t →
      colonFree t = true) ∧
    (removeDuplicateInfoC
        (removeDuplicateInfoC [] [some (str "ef"), some (str "gh")]).2
        ((removeDuplicateInfoC [] [some (str "ef"), some (str "gh")]).1.map some)).1 =
      (removeDuplicateInfoC [] [some (str "ef"), some (str "gh")]).1 :=
  ⟨fun p hp => absurd hp (List.not_mem_nil p), by decide,
    C7_amended [] [some (str "ef"), some (str "gh")]
      (fun p hp => absurd hp (List.not_mem_nil p)) (by decide)⟩

set_option maxRecDepth 8000 in
/-- C2 (counterexample): two different texts sharing their first 100
characters collide in the Phrase Cache — after extracting phrases for
`cexLongTextA`, a call on `cexLongTextB` returns `cexLongTextA`'s cached
phrases instead of the fresh extraction of `cexLongTextB`. -/
theorem C2_counterexample :
    (extractKPP (extractKPP [] cexLongTextA).2 cexLongTextB).1 ≠
      extractPhrases cexLongTextB := by
  decide

/-- C2 (amended): the Phrase Cache is transparent only when the key
determines the text — whenever every cached text had at most 100 characters
(so each key *is* its text) and the requested text has at most 100
characters, `extractKeyPhrasesParallel` returns exactly the fresh extraction
and the cache stays in that state; texts longer than 100 characters can
collide on the key and be served another text's phrases. -/
theorem C2_amended (pc : PhraseCache) (t : Str) (hpc : pcCoherent pc)
    (ht : t.length ≤ 100) :
    (extractKPP pc t).1 = extractPhrases t ∧ pcCoherent (extractKPP pc t).2 :=
  extractKPP_spec pc t hpc ht

/-- Witness for C2 (amended) at the empty cache and a short text. -/
theorem C2_amended_witness :
    pcCoherent [] ∧ (str "hello world").length ≤ 100 ∧
    ((extractKPP [] (str "hello world")).1 = extractPhrases (str "hello world") ∧
      pcCoherent (extractKPP [] (str "hello world")).2) :=
  ⟨fun p hp => absurd hp (List.not_mem_nil p), by decide,
    C2_amended [] (str "hello world") (fun p hp => absurd hp (List.not_mem_nil p))
      (by decide)⟩

/-- C4 (counterexample): with a *single* article whose combined text contains
the 3-token phrase `"alpha beta gamma"` twice, that phrase appears in the
themes returned by `findCommonThemes`, even though it occurs in only one
article's extracted phrase set — the threshold counts total occurrences in
the flattened stream, not distinct articles. -/
theorem C4_counterexample :
    (findCommonThemes [] [cexThemeArticle]).1 = [str "alpha beta gamma"] := by
  decide

/-- C4 (amended): under a coherent phrase cache and per-article texts short
enough to be fully keyed, a phrase occurring in the extracted sets of two
distinct articles always appears in `themes`, and membership in `themes` is
exactly "at least two occurrences in the flattened phrase stream" — so a
phrase repeated within a single article's set also qualifies. -/
theorem C4_amended (pc : PhraseCache) (articles : List JSArticle)
    (hpc : pcCoherent pc)
    (hlen : ∀ a ∈ articles, (combinedText a).length ≤ 100) :
    (∀ φ, φ ∈ (findCommonThemes pc articles).1 ↔
      2 ≤ ((articles.map (fun a => extractPhrases (combinedText a))).flatten).count φ) ∧
    (∀ φ (i j : Nat) (hi : i < articles.length) (hj : j < articles.length),
      i < j →
      φ ∈ extractPhrases (combinedText articles[i]) →
      φ ∈ extractPhrases (combinedText articles[j]) →
      φ ∈ (findCommonThemes pc articles).1) := by
  have hspec := findCommonThemes_spec pc articles hpc hlen
  refine ⟨hspec.1, ?_⟩
  intro φ i j hi hj hij hmi hmj
  rw [hspec.1 φ]
  have hL : ∀ (M : List (List Str)) (k : Nat),
      (M.drop k).flatten.count φ ≤ M.flatten.count φ := by
    intro M k
    conv_rhs => rw [← List.take_append_drop k M]
    rw [List.flatten_append, List.count_append]
    omega
  have hAt : ∀ (M : List (List Str)) (k : Nat) (hk : k < M.length),
      φ ∈ M[k] → M[k].count φ + (M.drop (k + 1)).flatten.count φ ≤
        (M.drop k).flatten.count φ := by
    intro M k hk hmem
    rw [List.drop_eq_getElem_cons hk, List.flatten_cons, List.count_append]
  set M := articles.map (fun a => extractPhrases (combinedText a)) with hM
  have hiM : i < M.length := by simpa [hM] using hi
  have hjM : j < M.length := by simpa [hM] using hj
  have hgi : M[i] = extractPhrases (combinedText articles[i]) := by
    simp [hM]
  have hgj : M[j] = extractPhrases (combinedText articles[j]) := by
    simp [hM]
  have hci : 0 < M[i].count φ :=
    List.count_pos_iff.mpr (by rw [hgi]; exact hmi)
  have hcj : 0 < M[j].count φ :=
    List.count_pos_iff.mpr (by rw [hgj]; exact hmj)
  have h1 := hL M i
  have h2 := hAt M i hiM (by rw [hgi]; exact hmi)
  have hdd : M.drop j = (M.drop (i + 1)).drop (j - (i + 1)) := by
    rw [List.drop_drop]
    congr 1
    omega
  have h3 : (M.drop j).flatten.count φ ≤ (M.drop (i + 1)).flatten.count φ := by
    rw [hdd]
    exact hL (M.drop (i + 1)) (j - (i + 1))
  have h4 := hAt M j hjM (by rw [hgj]; exact hmj)
  have h5 := hL M j
  omega

/-- Witness for C4 (amended) at the empty cache and one concrete article. -/
theorem C4_amended_witness :
    (∀ a ∈ [cexThemeArticle], (combinedText a).length ≤ 100) ∧
    ((∀ φ, φ ∈ (findCommonThemes [] [cexThemeArticle]).1 ↔
      2 ≤ (([cexThemeArticle].map
        (fun a => extractPhrases (combinedText a))).flatten).count φ) ∧
    (∀ φ (i j : Nat) (hi : i < [cexThemeArticle].length)
        (hj : j < [cexThemeArticle].length),
      i < j →
      φ ∈ extractPhrases (combinedText [cexThemeArticle][i]) →
      φ ∈ extractPhrases (combinedText [cexThemeArticle][j]) →
      φ ∈ (findCommonThemes [] [cexThemeArticle]).1)) :=
  ⟨by decide,
    C4_amended [] [cexThemeArticle] (fun p hp => absurd hp (List.not_mem_nil p))
      (by decide)⟩

/-- C6 (counterexample): the similarity-cache key `sentence + ":" + other` is
not injective on ordered pairs — after a call in which the pair
`("abc", "abc:abcabc")` stores its value under the key `"abc:abc:abcabc"`, a
later call looking up the *different* pair `("abc:abc", "abcabc")` hits the
same key and is served the other pair's value, flipping the dedup decision
relative to a fresh computation. -/
theorem C6_counterexample :
    (removeDuplicateInfoC (removeDuplicateInfoC [] cexCacheFeed).2 cexCacheProbe).1 ≠
      (removeDuplicateInfoC [] cexCacheProbe).1 := by
  decide

/-- C6 (amended): the cache key is the bare concatenation
`sentence + ":" + other`, which identifies the ordered pair only for
colon-free strings.  For colon-free sentences under a coherent cache, a
stored value is served exactly for the pair that produced it, cached dedup
decisions equal fresh ones, and coherence is preserved; sentences containing
`':'` can collide and be served another pair's value. -/
theorem C6_amended (sc : SimCache) (xs : List JVal) (hsc : scCoherent sc)
    (hxs : ∀ o ∈ xs, ∀ t, o = some t → colonFree t = true) :
    (removeDuplicateInfoC sc xs).1 = removeDuplicateInfo xs ∧
      scCoherent (removeDuplicateInfoC sc xs).2 :=
  removeDuplicateInfoC_spec sc xs hsc hxs

/-- Witness for C6 (amended) at the empty cache and colon-free sentences. -/
theorem C6_amended_witness :
    scCoherent [] ∧
    (∀ o ∈ [some (str "ab"), some (str "cd")], ∀ t, o = some t → colonFree t = true) ∧
    ((removeDuplicateInfoC [] [some (str "ab"), some (str "cd")]).1 =
        removeDuplicateInfo [some (str "ab"), some (str "cd")] ∧
      scCoherent (removeDuplicateInfoC [] [some (str "ab"), some (str "cd")]).2) :=
  ⟨fun p hp => absurd hp (List.not_mem_nil p), by decide,
    C6_amended [] [some (str "ab"), some (str "cd")]
      (fun p hp => absurd hp (List.not_mem_nil p)) (by decide)⟩

/-- C9: after any `set`-plus-eviction on either bounded cache the size stays
at most 1000, and inserting a fresh key into a full cache of 1000 entries
evicts exactly the oldest-inserted entry (the head of the insertion order),
keeping the rest and appending the new entry at the tail. -/
theorem C9_capacity {V : Type} (c : List (Str × V)) (k : Str) (v : V)
    (h : c.length ≤ 1000) :
    (cacheInsert c k v).length ≤ 1000 ∧
    (c.length = 1000 → k ∉ c.map (fun p => p.1) →
      cacheInsert c k v = c.tail ++ [(k, v)]) := by
  have hms := mapSet_length c k v
  have hlenle : (mapSet c k v).length ≤ 1001 := by
    rw [hms]
    split <;> omega
  constructor
  · unfold cacheInsert
    by_cases hlen : (mapSet c k v).length > 1000
    · rw [if_pos hlen]
      cases hmv : mapSet c k v with
      | nil => simp
      | cons q t =>
        rw [hmv] at hlenle
        simp only [List.length_cons] at hlenle ⊢
        omega
    · rw [if_neg hlen]
      omega
  · intro h1000 hnotin
    unfold cacheInsert
    have hmse : mapSet c k v = c ++ [(k, v)] := by
      unfold mapSet
      rw [if_neg hnotin]
    rw [hmse]
    have hgt : (c ++ [(k, v)]).length > 1000 := by
      simp [h1000]
    rw [if_pos hgt]
    cases c with
    | nil => simp at h1000
    | cons x c' => simp

/-- Witness for C9 at a full cache of 1000 distinct keys and a fresh key. -/
theorem C9_capacity_witness :
    ((List.range 1000).map
        (fun i => ((List.replicate i 'a' : Str), (0 : Nat)))).length ≤ 1000 ∧
    ((cacheInsert ((List.range 1000).map
        (fun i => ((List.replicate i 'a' : Str), (0 : Nat)))) (str "k") 0).length ≤ 1000 ∧
      (((List.range 1000).map
          (fun i => ((List.replicate i 'a' : Str), (0 : Nat)))).length = 1000 →
        str "k" ∉ ((List.range 1000).map
          (fun i => ((List.replicate i 'a' : Str), (0 : Nat)))).map
            (fun p => p.1) →
        cacheInsert ((List.range 1000).map
          (fun i => ((List.replicate i 'a' : Str), (0 : Nat)))) (str "k") 0 =
          ((List.range 1000).map
            (fun i => ((List.replicate i 'a' : Str), (0 : Nat)))).tail ++
            [(str "k", 0)])) :=
  ⟨by simp, C9_capacity _ (str "k") 0 (by simp)⟩

/-- C10 (counterexample): inside one `removeDuplicateInfo` call starting from
an empty similarity cache, the key collision `"ababab" + ":" + "ababab:zz" =
"ababab:ababab" + ":" + "zz"` serves the stored low value when `"ababab"` is
checked against `"ababab:zz"`, so both are retained even though their actual
similarity `10/13` exceeds `0.6` — the output is not pairwise dissimilar. -/
theorem C10_counterexample :
    (removeDuplicateInfoC [] cexCollideList).1 =
      [str "zz", str "ababab:ababab", str "ababab:zz", str "ababab"] ∧
    simB (str "ababab") (str "ababab:zz") = true := by
  decide

/-- C10 (amended): for colon-free sentences under a coherent similarity
cache (so no key collisions), any two distinct retained sentences have
similarity at most `0.6` in both comparison orders — every later output
sentence was checked against every earlier one, whether or not the two fall
in the same chunk of 10. -/
theorem C10_amended (sc : SimCache) (xs : List JVal) (hsc : scCoherent sc)
    (hxs : ∀ o ∈ xs, ∀ t, o = some t → colonFree t = true) :
    ((removeDuplicateInfoC sc xs).1).Pairwise
      (fun a b => simB a b = false ∧ simB b a = false) := by
  rw [(removeDuplicateInfoC_spec sc xs hsc hxs).1]
  refine (removeDuplicateInfo_good xs).1.imp ?_
  intro a b hab
  exact ⟨by rw [simB_comm]; exact hab, hab⟩

/-- Witness for C10 (amended): a colon-free list containing both a genuine
near-duplicate pair and a dissimilar sentence. -/
theorem C10_amended_witness :
    scCoherent [] ∧
    (∀ o ∈ [some (str "hamilton wins the race"),
        some (str "hamilton wins the race again"), some (str "zz")],
      ∀ t, o = some t → colonFree t = true) ∧
    ((removeDuplicateInfoC [] [some (str "hamilton wins the race"),
        some (str "hamilton wins the race again"), some (str "zz")]).1).Pairwise
      (fun a b => simB a b = false ∧ simB b a = false) :=
  ⟨fun p hp => absurd hp (List.not_mem_nil p), by decide,
    C10_amended [] [some (str "hamilton wins the race"),
        some (str "hamilton wins the race again"), some (str "zz")]
      (fun p hp => absurd hp (List.not_mem_nil p)) (by decide)⟩

/-- C5 (counterexample): three valid articles of which one is processed give
ratio `1/3 < 0.5`; the returned fallback record carries
`processedArticles = 1` and `totalArticles = 3` but its `confidence` field is
the spread fallback value `0`, not `processedArticles / validArticles = 1/3` —
so the returned record's confidence does not equal the ratio. -/
theorem C5_counterexample :
    (summarize (fun i => i < 2) [] [] (some cexThreeArticles)).1.confidence = 0 ∧
    (summarize (fun i => i < 2) [] [] (some cexThreeArticles)).1.processedArticles =
      some 1 ∧
    (summarize (fun i => i < 2) [] [] (some cexThreeArticles)).1.totalArticles =
      some 3 ∧
    (0 : ℚ) ≠ (1 : ℚ) / 3 :=
  ⟨rfl, by decide, by decide, by norm_num⟩

/-- C5 (amended): for every input with at least one valid article the
computed ratio `processedArticles / validArticles` always lies in `[0, 1]`
and the returned record carries `processedArticles` and `totalArticles`
(the latter being the count of *valid* articles); when the ratio is at least
`0.5` the returned `confidence` equals the ratio, but when it is below `0.5`
the full fallback record is returned — fixed text, empty themes, a
`partialData` flag, and `confidence` reset to `0` rather than the ratio. -/
theorem C5_amended (fails : Nat → Bool) (pc : PhraseCache) (sc : SimCache)
    (arts : List JSArticle)
    (h : (arts.filter validateArticle).isEmpty = false) :
    ∃ p n : Nat,
      0 < n ∧ p ≤ n ∧ n = (arts.filter validateArticle).length ∧
      (0 : ℚ) ≤ (p : ℚ) / (n : ℚ) ∧ (p : ℚ) / (n : ℚ) ≤ 1 ∧
      (summarize fails pc sc (some arts)).1.processedArticles = some p ∧
      (summarize fails pc sc (some arts)).1.totalArticles = some n ∧
      (2 * p < n →
        (summarize fails pc sc (some arts)).1 =
          { fallbackSummary with
            partialData := true
            processedArticles := some p
            totalArticles := some n }) ∧
      (n ≤ 2 * p →
        (summarize fails pc sc (some arts)).1.confidence = (p : ℚ) / (n : ℚ)) := by
  refine ⟨(processArticles (findCommonThemes pc (arts.filter validateArticle)).1
      fails (arts.filter validateArticle) 0
      (findCommonThemes pc (arts.filter validateArticle)).2 sc).1.length,
    (arts.filter validateArticle).length, ?_, ?_, rfl, ?_, ?_, ?_, ?_, ?_, ?_⟩
  case _ =>
    cases hV : arts.filter validateArticle with
    | nil => rw [hV] at h; simp at h
    | cons a l => simp [hV]
  case _ => exact processArticles_le _ _ _ _ _ _
  case _ => positivity
  case _ =>
    have hnpos : 0 < (arts.filter validateArticle).length := by
      cases hV : arts.filter validateArticle with
      | nil => rw [hV] at h; simp at h
      | cons a l => simp [hV]
    rw [div_le_one (by exact_mod_cast hnpos)]
    exact_mod_cast processArticles_le _ _ _ _ _ _
  all_goals
    by_cases hlt : 2 * (processArticles (findCommonThemes pc
        (arts.filter validateArticle)).1 fails (arts.filter validateArticle) 0
        (findCommonThemes pc (arts.filter validateArticle)).2 sc).1.length <
        (arts.filter validateArticle).length
  case pos =>
    have hsum : (summarize fails pc sc (some arts)).1 =
        { fallbackSummary with
          partialData := true
          processedArticles := some ((processArticles (findCommonThemes pc
            (arts.filter validateArticle)).1 fails (arts.filter validateArticle) 0
            (findCommonThemes pc (arts.filter validateArticle)).2 sc).1.length)
          totalArticles := some (arts.filter validateArticle).length } := by
      simp only [summarize, summarizeCore, h, Bool.false_eq_true, if_false]
      rw [if_pos hlt]
    rw [hsum]
  case pos =>
    have hsum : (summarize fails pc sc (some arts)).1 =
        { fallbackSummary with
          partialData := true
          processedArticles := some ((processArticles (findCommonThemes pc
            (arts.filter validateArticle)).1 fails (arts.filter validateArticle) 0
            (findCommonThemes pc (arts.filter validateArticle)).2 sc).1.length)
          totalArticles := some (arts.filter validateArticle).length } := by
      simp only [summarize, summarizeCore, h, Bool.false_eq_true, if_false]
      rw [if_pos hlt]
    rw [hsum]
  case pos =>
    intro _
    have hsum : (summarize fails pc sc (some arts)).1 =
        { fallbackSummary with
          partialData := true
          processedArticles := some ((processArticles (findCommonThemes pc
            (arts.filter validateArticle)).1 fails (arts.filter validateArticle) 0
            (findCommonThemes pc (arts.filter validateArticle)).2 sc).1.length)
          totalArticles := some (arts.filter validateArticle).length } := by
      simp only [summarize, summarizeCore, h, Bool.false_eq_true, if_false]
      rw [if_pos hlt]
    rw [hsum]
  case pos =>
    intro hge
    omega
  all_goals
    have hsum : (summarize fails pc sc (some arts)).1.processedArticles =
          some ((processArticles (findCommonThemes pc
            (arts.filter validateArticle)).1 fails (arts.filter validateArticle) 0
            (findCommonThemes pc (arts.filter validateArticle)).2 sc).1.length) ∧
        (summarize fails pc sc (some arts)).1.totalArticles =
          some (arts.filter validateArticle).length ∧
        (summarize fails pc sc (some arts)).1.confidence =
          (((processArticles (findCommonThemes pc
            (arts.filter validateArticle)).1 fails (arts.filter validateArticle) 0
            (findCommonThemes pc (arts.filter validateArticle)).2 sc).1.length : ℚ) /
          ((arts.filter validateArticle).length : ℚ)) := by
      simp only [summarize, summarizeCore, h, Bool.false_eq_true, if_false]
      rw [if_neg hlt]
      exact ⟨rfl, rfl, rfl⟩
  case neg => exact hsum.1
  case neg => exact hsum.2.1
  case neg =>
    intro hcon
    omega
  case neg =>
    intro _
    exact hsum.2.2

/-- Witness for C5 (amended) on three concrete valid articles with no
failures. -/
theorem C5_amended_witness :
    (cexThreeArticles.filter validateArticle).isEmpty = false ∧
    (∃ p n : Nat,
      0 < n ∧ p ≤ n ∧ n = (cexThreeArticles.filter validateArticle).length ∧
      (0 : ℚ) ≤ (p : ℚ) / (n : ℚ) ∧ (p : ℚ) / (n : ℚ) ≤ 1 ∧
      (summarize (fun _ => false) [] [] (some cexThreeArticles)).1.processedArticles =
        some p ∧
      (summarize (fun _ => false) [] [] (some cexThreeArticles)).1.totalArticles =
        some n ∧
      (2 * p < n →
        (summarize (fun _ => false) [] [] (some cexThreeArticles)).1 =
          { fallbackSummary with
            partialData := true
            processedArticles := some p
            totalArticles := some n }) ∧
      (n ≤ 2 * p →
        (summarize (fun _ => false) [] [] (some cexThreeArticles)).1.confidence =
          (p : ℚ) / (n : ℚ))) :=
  ⟨by decide, C5_amended (fun _ => false) [] [] cexThreeArticles (by decide)⟩
